import Mathlib

/-!
# Verification of the GA4GH VA-Spec record validation model (ga4gh/va-spec-python)

A shallow embedding of the repository's pydantic record model.  Input documents
are JSON-compatible values (`Json`).  Each concrete record kind is embedded as a
list of field specifications (`FieldSpec`) mirroring, field by field, the
pydantic class declarations in `src/ga4gh/va_spec/...`.  Construction of a
record from an input document is `parseNorm` below: it rejects unknown keys
(pydantic `extra="forbid"` behaviour, exercised by the repository's own test
suite), checks required fields, fills in the literal defaults of `type`
discriminator fields, validates every present field with a check faithful to
the field's declared pydantic type plus any attached `field_validator`, and
returns the record in normalized serialized form (the shape of
`model_dump(exclude_none=True)`, the serialization used by the repository's
tests).

JSON numbers are modelled as integers (`Int`): every numeric value appearing in
the repository's validation logic and fixtures is an integer, and no claim
depends on fractional values.
-/

/-- A JSON-compatible structured value: the input/output encoding of the
record model (spec section 6). -/
inductive Json where
  | null : Json
  | str : String → Json
  | num : Int → Json
  | bool : Bool → Json
  | arr : List Json → Json
  | obj : List (String × Json) → Json

namespace Json

mutual

/-- A document is null-free when no member or element anywhere inside it is
JSON `null`. -/
def nullFree : Json → Bool
  | .null => false
  | .str _ => true
  | .num _ => true
  | .bool _ => true
  | .arr xs => nullFreeList xs
  | .obj kvs => nullFreePairs kvs

/-- All elements of a JSON array are null-free. -/
def nullFreeList : List Json → Bool
  | [] => true
  | x :: xs => x.nullFree && nullFreeList xs

/-- All member values of a JSON object are null-free. -/
def nullFreePairs : List (String × Json) → Bool
  | [] => true
  | kv :: kvs => kv.2.nullFree && nullFreePairs kvs

end

/-- Whether a value is JSON null. -/
def isNull : Json → Bool
  | .null => true
  | _ => false

/-- Look up the first member with the given key in an object; `none` for
non-objects or missing keys. -/
def lookupField : Json → String → Option Json
  | .obj kvs, k => List.lookup k kvs
  | _, _ => none

/-- Whether a document is an object that contains the given key. -/
def hasField (v : Json) (k : String) : Bool :=
  (v.lookupField k).isSome

end Json

/-- One pydantic field declaration: its name, whether it is required, whether
an explicit JSON null is tolerated (pydantic `Optional` fields), the default
value filled in when the field is absent (used by `type` discriminator
literals), and the validation/normalization function for a present non-null
value. -/
structure FieldSpec where
  name : String
  required : Bool
  nullable : Bool
  dflt : Option Json
  check : Json → Except String Json

/-- Process the field specifications of one record kind against the members of
an input object, in declaration order: a missing field is defaulted, skipped
(optional) or rejected (required); an explicit null is skipped for nullable
fields and rejected otherwise; a present value is validated and normalized by
the field's check.  The output is the normalized member list of the
constructed record, i.e. its `model_dump(exclude_none=True)` serialization. -/
def runSpecsAux : List FieldSpec → List (String × Json) → Except String (List (String × Json))
  | [], _ => .ok []
  | s :: rest, flds =>
    match List.lookup s.name flds with
    | none =>
      match s.dflt with
      | some d =>
        match runSpecsAux rest flds with
        | .ok out => .ok ((s.name, d) :: out)
        | .error e => .error e
      | none =>
        if s.required then .error ("missing required field: " ++ s.name)
        else runSpecsAux rest flds
    | some v =>
      if v.isNull then
        if s.nullable then runSpecsAux rest flds
        else .error ("null is not permitted for field: " ++ s.name)
      else
        match s.check v with
        | .error e => .error e
        | .ok w =>
          match runSpecsAux rest flds with
          | .ok out => .ok ((s.name, w) :: out)
          | .error e => .error e

/-- Whether every member key of the input object names a declared field
(pydantic rejects unknown keys: "Extra inputs are not permitted"). -/
def noExtraKeys (specs : List FieldSpec) (flds : List (String × Json)) : Bool :=
  flds.all (fun kv => specs.any (fun s => s.name = kv.1))

/-- Construct a record of the kind described by `specs` from an input document:
the document must be an object, must carry no unknown keys, and every field
must validate. -/
def runSpecs (specs : List FieldSpec) : Json → Except String Json
  | .obj flds =>
    if noExtraKeys specs flds then
      match runSpecsAux specs flds with
      | .ok out => .ok (.obj out)
      | .error e => .error e
    else .error "extra inputs are not permitted"
  | _ => .error "input must be an object"

/-!
## Controlled vocabularies (`src/ga4gh/va_spec/base/enums.py` and profile modules)
-/

/-- `base.enums.StrengthOfEvidenceProvided` member values. -/
def STRENGTH_OF_EVIDENCE_PROVIDED_VALUES : List String :=
  ["standalone", "very strong", "strong", "moderate", "supporting"]

/-- `base.enums.Strength` member values. -/
def STRENGTHS : List String := ["definitive", "likely"]

/-- `base.enums.System.ACMG`. -/
def System.ACMG : String := "ACMG Guidelines, 2015"

/-- `base.enums.System.AMP_ASCO_CAP`. -/
def System.AMP_ASCO_CAP : String := "AMP/ASCO/CAP (AAC) Guidelines, 2017"

/-- `base.enums.System.CLIN_GEN`. -/
def System.CLIN_GEN : String := "ClinGen Low Penetrance and Risk Allele Recommendations, 2024"

/-- `base.enums.System.CCV`. -/
def System.CCV : String := "ClinGen/CGC/VICC Guidelines for Oncogenicity, 2022"

/-- `base.core.Direction` member values. -/
def DIRECTION_VALUES : List String := ["supports", "neutral", "disputes"]

/-- `aac_2017.Strength` member values (`AMP_ASCO_CAP_LEVELS`). -/
def AMP_ASCO_CAP_LEVELS : List String := ["Level A", "Level B", "Level C", "Level D"]

/-- `aac_2017.Classification` member values (`AMP_ASCO_CAP_TIERS`). -/
def AMP_ASCO_CAP_TIERS : List String := ["Tier I", "Tier II", "Tier III", "Tier IV"]

/-- `acmg_2015.AcmgClassification` member values (`ACMG_CLASSIFICATIONS`). -/
def ACMG_CLASSIFICATIONS : List String :=
  ["pathogenic", "likely pathogenic", "benign", "likely benign", "uncertain significance"]

/-- `acmg_2015.EvidenceOutcome` member values (`EVIDENCE_OUTCOME_VALUES`). -/
def ACMG_EVIDENCE_OUTCOME_VALUES : List String :=
  ["PS3", "PS3_moderate", "PS3_supporting", "PS3_not_met",
   "BS3", "BS3_moderate", "BS3_supporting", "BS3_not_met"]

/-- `ccv_2022.EvidenceOutcome` member values (`EVIDENCE_OUTCOME_VALUES`). -/
def CCV_EVIDENCE_OUTCOME_VALUES : List String :=
  ["OS2", "OS2_moderate", "OS2_supporting", "OS2_not_met",
   "SBS2", "SBS2_moderate", "SBS2_supporting", "SBS2_not_met"]

/-- Modelled from the spec: `CLIN_GEN_CLASSIFICATIONS` is imported by
`acmg_2015/models.py` and `ccv_2022/models.py` but the module defining its
members is not under `src/`; the spec (section 4.1 and the `System.CLIN_GEN`
literal "ClinGen Low Penetrance and Risk Allele Recommendations, 2024")
identifies it as the ClinGen low-penetrance / risk-allele classification
vocabulary.  No theorem below depends on the exact membership of this list. -/
def CLIN_GEN_CLASSIFICATIONS : List String :=
  ["low penetrance", "likely low penetrance", "risk allele", "likely risk allele"]

/-- Render a permitted-code list inside an error message
(Python renders the list in the f-string). -/
def listRepr (xs : List String) : String :=
  "[" ++ String.intercalate ", " xs ++ "]"

/-!
## Profile field validators

Each function mirrors one `field_validator` from the source, operating on the
parsed (normalized) `MappableConcept` value exactly as the pydantic validator
receives the parsed model instance.  Error message text keeps the content of
the Python messages (the named system literal, the listed permitted codes)
without the surrounding quote characters.
-/

/-- Whether the primary coding object's `code` is a member of the permitted
list (Python `v.primaryCoding.code.root in codes`). -/
def codeIn (pc : Json) (codes : List String) : Bool :=
  match pc.lookupField "code" with
  | some (.str c) => codes.contains c
  | _ => false

/-- Whether the primary coding object's `system` equals the given literal
(Python `v.primaryCoding.system == system`). -/
def systemIs (pc : Json) (sys : String) : Bool :=
  match pc.lookupField "system" with
  | some (.str s) => s = sys
  | _ => false

/-- `aac_2017.models._ValidatorMixin.validate_strength`: requires
`primaryCoding`, its `system` to be the AMP/ASCO/CAP literal, and its `code`
to be one of the AMP/ASCO/CAP levels.  Every failing branch raises. -/
def aac_2017.ValidatorMixin.validate_strength (v : Option Json) : Except String (Option Json) :=
  match v with
  | none => .ok none
  | some mc =>
    match mc.lookupField "primaryCoding" with
    | none => .error "primaryCoding is required."
    | some pc =>
      if systemIs pc System.AMP_ASCO_CAP then
        if codeIn pc AMP_ASCO_CAP_LEVELS then .ok (some mc)
        else .error ("primaryCoding.code should be one of " ++ listRepr AMP_ASCO_CAP_LEVELS ++ ".")
      else .error ("primaryCoding.system must be: " ++ System.AMP_ASCO_CAP ++ ".")

/-- `aac_2017.models._ValidatorMixin.validate_classification`: requires
`primaryCoding`, its `system` to be the AMP/ASCO/CAP literal, and its `code`
to be one of the AMP/ASCO/CAP tiers.  Every failing branch raises. -/
def aac_2017.ValidatorMixin.validate_classification (v : Json) : Except String Json :=
  match v.lookupField "primaryCoding" with
  | none => .error "primaryCoding is required."
  | some pc =>
    if systemIs pc System.AMP_ASCO_CAP then
      if codeIn pc AMP_ASCO_CAP_TIERS then .ok v
      else .error ("primaryCoding.code should be one of " ++ listRepr AMP_ASCO_CAP_TIERS ++ ".")
    else .error ("primaryCoding.system must be: " ++ System.AMP_ASCO_CAP ++ ".")

/-- Modelled from the spec: `base.validators.validate_mappable_concept`
(`src/ga4gh/va_spec/base/validators.py` is not under `src/`; it is imported by
`acmg_2015/models.py`).  Spec section 4.3 rules 1-4: absent passes when
optional; `primaryCoding` must be present; its `system` must equal the exact
expected literal (the message names the literal); its `code` must be a member
of the permitted set (the message lists the set). -/
def validate_mappable_concept (v : Option Json) (sys : String) (codes : List String)
    (mc_is_required : Bool) : Except String (Option Json) :=
  match v with
  | none => if mc_is_required then .error "mappableConcept is required." else .ok none
  | some mc =>
    match mc.lookupField "primaryCoding" with
    | none => .error "primaryCoding is required."
    | some pc =>
      if systemIs pc sys then
        if codeIn pc codes then .ok (some mc)
        else .error ("primaryCoding.code must be one of " ++ listRepr codes ++ ".")
      else .error ("primaryCoding.system must be: " ++ sys ++ ".")

/-- `acmg_2015.models.VariantPathogenicityFunctionalImpactEvidenceLine.validate_strength_of_evidence_provided`. -/
def acmg_2015.FunctionalImpactEvidenceLine.validate_strength_of_evidence_provided
    (v : Option Json) : Except String (Option Json) :=
  validate_mappable_concept v System.ACMG STRENGTH_OF_EVIDENCE_PROVIDED_VALUES false

/-- `acmg_2015.models.VariantPathogenicityFunctionalImpactEvidenceLine.validate_evidence_outcome`. -/
def acmg_2015.FunctionalImpactEvidenceLine.validate_evidence_outcome
    (v : Option Json) : Except String (Option Json) :=
  validate_mappable_concept v System.ACMG ACMG_EVIDENCE_OUTCOME_VALUES false

/-- `acmg_2015.models.VariantPathogenicityFunctionalImpactEvidenceLine.validate_specified_by`:
an inline `Method` (an object) without a populated `reportedIn` is rejected;
a reference (a bare string) or a `Method` carrying `reportedIn` passes. -/
def acmg_2015.FunctionalImpactEvidenceLine.validate_specified_by (v : Json) : Except String Json :=
  match v with
  | .obj _ => if v.hasField "reportedIn" then .ok v else .error "reportedIn is required."
  | _ => .ok v

/-- `acmg_2015.models.VariantPathogenicityStatement.validate_strength`. -/
def acmg_2015.VariantPathogenicityStatement.validate_strength
    (v : Option Json) : Except String (Option Json) :=
  validate_mappable_concept v System.ACMG STRENGTHS false

/-- `acmg_2015.models.VariantPathogenicityStatement.validate_classification`:
requires `primaryCoding`.  The source then builds a supported-systems error
message WITHOUT raising it (a dead store: `err_msg` is assigned and never
used), so a mismatched system is never rejected here; the only raising checks
are the code-membership checks, against `ACMG_CLASSIFICATIONS` when the system
equals the ACMG literal and against `CLIN_GEN_CLASSIFICATIONS` otherwise. -/
def acmg_2015.VariantPathogenicityStatement.validate_classification
    (v : Json) : Except String Json :=
  match v.lookupField "primaryCoding" with
  | none => .error "primaryCoding is required."
  | some pc =>
    if systemIs pc System.ACMG then
      if codeIn pc ACMG_CLASSIFICATIONS then .ok v
      else .error ("primaryCoding.code must be one of " ++ listRepr ACMG_CLASSIFICATIONS ++ ".")
    else
      if codeIn pc CLIN_GEN_CLASSIFICATIONS then .ok v
      else .error ("primaryCoding.code must be one of " ++ listRepr CLIN_GEN_CLASSIFICATIONS ++ ".")

/-- `ccv_2022.models.VariantOncogenicityFunctionalImpactEvidenceLine.validate_strength_of_evidence_provided`:
requires `primaryCoding`, the CCV system literal (raising on mismatch), and a
strength-of-evidence code. -/
def ccv_2022.FunctionalImpactEvidenceLine.validate_strength_of_evidence_provided
    (v : Option Json) : Except String (Option Json) :=
  match v with
  | none => .ok none
  | some mc =>
    match mc.lookupField "primaryCoding" with
    | none => .error "primaryCoding is required."
    | some pc =>
      if systemIs pc System.CCV then
        if codeIn pc STRENGTH_OF_EVIDENCE_PROVIDED_VALUES then .ok (some mc)
        else .error ("primaryCoding.code must be one of "
          ++ listRepr STRENGTH_OF_EVIDENCE_PROVIDED_VALUES ++ ".")
      else .error ("primaryCoding.system must be: " ++ System.CCV ++ ".")

/-- `ccv_2022.models.VariantOncogenicityFunctionalImpactEvidenceLine.validate_evidence_outcome`:
requires `primaryCoding`, the CCV system literal (raising on mismatch), and an
evidence-outcome code. -/
def ccv_2022.FunctionalImpactEvidenceLine.validate_evidence_outcome
    (v : Option Json) : Except String (Option Json) :=
  match v with
  | none => .ok none
  | some mc =>
    match mc.lookupField "primaryCoding" with
    | none => .error "primaryCoding is required."
    | some pc =>
      if systemIs pc System.CCV then
        if codeIn pc CCV_EVIDENCE_OUTCOME_VALUES then .ok (some mc)
        else .error ("primaryCoding.code must be one of "
          ++ listRepr CCV_EVIDENCE_OUTCOME_VALUES ++ ".")
      else .error ("primaryCoding.system must be: " ++ System.CCV ++ ".")

/-- `ccv_2022.models.VariantOncogenicityStudyStatement.validate_strength`:
requires `primaryCoding`.  The source compares the system to the ClinGen
literal but only ASSIGNS the mismatch message without raising it (dead store),
so a mismatched system is never rejected; only a `code` outside `STRENGTHS`
raises. -/
def ccv_2022.VariantOncogenicityStudyStatement.validate_strength
    (v : Option Json) : Except String (Option Json) :=
  match v with
  | none => .ok none
  | some mc =>
    match mc.lookupField "primaryCoding" with
    | none => .error "primaryCoding is required."
    | some pc =>
      if codeIn pc STRENGTHS then .ok (some mc)
      else .error ("primaryCoding.code must be one of " ++ listRepr STRENGTHS ++ ".")

/-- `ccv_2022.models.VariantOncogenicityStudyStatement.validate_classification`:
requires `primaryCoding`.  As in `validate_strength`, the system comparison
only assigns its error message (dead store); only a `code` outside
`CLIN_GEN_CLASSIFICATIONS` raises. -/
def ccv_2022.VariantOncogenicityStudyStatement.validate_classification
    (v : Json) : Except String Json :=
  match v.lookupField "primaryCoding" with
  | none => .error "primaryCoding is required."
  | some pc =>
    if codeIn pc CLIN_GEN_CLASSIFICATIONS then .ok v
    else .error ("primaryCoding.code must be one of " ++ listRepr CLIN_GEN_CLASSIFICATIONS ++ ".")

/-!
## Field checks (pydantic type annotations as validation functions)

Each combinator validates and normalizes the JSON value of one field, mirroring
how pydantic coerces the annotated type.  External value types consumed through
narrow interfaces (VRS `Allele`, `MolecularVariation`, `CategoricalVariant`,
the domain entities `Condition` and `Therapeutic`) are opaque validated objects
per spec section 6; they are modelled as opaque object checks.
-/

/-- A plain string field. -/
def strCheck : Json → Except String Json
  | .str s => .ok (.str s)
  | _ => .error "value must be a string"

/-- An integer-number field (also used for the float-annotated score fields:
JSON numbers are modelled as integers). -/
def numCheck : Json → Except String Json
  | .num n => .ok (.num n)
  | _ => .error "value must be a number"

/-- An `iriReference` field: a root model wrapping a bare string. -/
def iriCheck : Json → Except String Json
  | .str s => .ok (.str s)
  | _ => .error "value must be an iriReference string"

/-- A free-form mapping field (`dict` annotations such as
`Proposition.subject`, `ancillaryResults`, `qualityMeasures`). -/
def objCheck : Json → Except String Json
  | .obj kvs => .ok (.obj kvs)
  | _ => .error "value must be an object"

/-- An opaque externally-validated object (VRS / cat-vrs / domain-entity
values the core does not interpret). -/
def opaqueObjCheck : Json → Except String Json := objCheck

/-- A free-form field with no constraint (`extensions`). -/
def anyCheck : Json → Except String Json := fun v => .ok v

/-- A string-enum field. -/
def enumCheck (allowed : List String) : Json → Except String Json
  | .str s =>
    if allowed.contains s then .ok (.str s)
    else .error ("value must be one of " ++ listRepr allowed)
  | _ => .error "enum value must be a string"

/-- A `date` field in ISO `YYYY-MM-DD` form. -/
def isIsoDate (s : String) : Bool :=
  match s.toList with
  | [a, b, c, d, e, f, g, h, i, j] =>
    a.isDigit && b.isDigit && c.isDigit && d.isDigit && e = '-'
      && f.isDigit && g.isDigit && h = '-' && i.isDigit && j.isDigit
  | _ => false

/-- Check for a `date`-annotated field. -/
def dateCheck : Json → Except String Json
  | .str s => if isIsoDate s then .ok (.str s) else .error "value must be an ISO date"
  | _ => .error "value must be an ISO date string"

/-- `Document.urls` element pattern (the source pattern
matches URLs led by an http, https, ftp or sftp scheme). -/
def matchesUrl (s : String) : Bool :=
  ["http://", "https://", "ftp://", "sftp://"].any (fun pre => pre.isPrefixOf s)

/-- Check for a `Document.urls` element. -/
def urlCheck : Json → Except String Json
  | .str s => if matchesUrl s then .ok (.str s) else .error "url must match the permitted schemes"
  | _ => .error "url must be a string"

/-- `Document.doi` pattern: a 10-led dotted digit run, a slash, then at least
one word character (the source pattern is unanchored at the end). -/
def isDoi (s : String) : Bool :=
  if s.startsWith "10." then
    match (s.drop 3).splitOn "/" with
    | numPart :: restParts =>
      let groups := numPart.splitOn "."
      decide (restParts ≠ []) &&
        groups.all (fun g => decide (g.length > 0) && g.toList.all Char.isDigit) &&
        (match (String.intercalate "/" restParts).toList with
         | c :: _ => c.isAlphanum || c = '_' || c = '-' || c = '.'
         | [] => false)
    | [] => false
  else false

/-- Check for the `Document.doi` field. -/
def doiCheck : Json → Except String Json
  | .str s => if isDoi s then .ok (.str s) else .error "doi must match the doi pattern"
  | _ => .error "doi must be a string"

/-- Validate each element of a list with the element check. -/
def mapCheck (c : Json → Except String Json) : List Json → Except String (List Json)
  | [] => .ok []
  | x :: xs =>
    match c x with
    | .error e => .error e
    | .ok w =>
      match mapCheck c xs with
      | .ok ws => .ok (w :: ws)
      | .error e => .error e

/-- Validate the elements of a list-annotated field. -/
def listCheck (c : Json → Except String Json) : Json → Except String Json
  | .arr xs =>
    match mapCheck c xs with
    | .ok ws => .ok (.arr ws)
    | .error e => .error e
  | _ => .error "value must be a list"

/-- Resolve a union-annotated field: try each variant's check in the declared
order and keep the first success (spec section 4.4). -/
def unionCheck : List (Json → Except String Json) → Json → Except String Json
  | [], _ => .error "value matches no permitted variant"
  | c :: cs, v =>
    match c v with
    | .ok w => .ok w
    | .error _ => unionCheck cs v

/-- Run a pydantic `field_validator` over the parsed value of an
optional-annotated field. -/
def withValidatorOpt (parse : Json → Except String Json)
    (validator : Option Json → Except String (Option Json)) : Json → Except String Json :=
  fun v =>
    match parse v with
    | .error e => .error e
    | .ok w =>
      match validator (some w) with
      | .ok _ => .ok w
      | .error e => .error e

/-- Run a pydantic `field_validator` over the parsed value of a required
field. -/
def withValidatorReq (parse : Json → Except String Json)
    (validator : Json → Except String Json) : Json → Except String Json :=
  fun v =>
    match parse v with
    | .error e => .error e
    | .ok w =>
      match validator w with
      | .ok _ => .ok w
      | .error e => .error e

/-!
## The record kind catalog
-/

/-- The embedded record kinds: the abstract bases that are constructible in
the source, the concrete core kinds, and the profile kinds the claims are
about. -/
inductive Kind where
  | coding
  | mappableConcept
  | method
  | document
  | agent
  | contribution
  | dataSet
  | studyGroup
  | studyResult
  | statement
  | evidenceLine
  | cafStudyResult
  | proposition
  | expFunctionalImpactProposition
  | variantDiagnosticProposition
  | variantOncogenicityProposition
  | variantPathogenicityProposition
  | variantPrognosticProposition
  | variantTherapeuticResponseProposition
  | acmgVariantPathogenicityStatement
  | acmgFunctionalImpactEvidenceLine
  | ccvVariantOncogenicityStudyStatement
deriving DecidableEq

/-- An optional field (pydantic `X | None = None`). -/
def optField (name : String) (check : Json → Except String Json) : FieldSpec :=
  ⟨name, false, true, none, check⟩

/-- A required field (pydantic `X = Field(...)`). -/
def reqField (name : String) (check : Json → Except String Json) : FieldSpec :=
  ⟨name, true, false, none, check⟩

/-- A required but nullable field (`Contribution.date: date | None` with no
default). -/
def reqNullableField (name : String) (check : Json → Except String Json) : FieldSpec :=
  ⟨name, true, true, none, check⟩

/-- A `type: Literal[...]` discriminator field: defaulted to its registered
literal when absent, and accepting only that literal when present. -/
def typeField (lit : String) : FieldSpec :=
  ⟨"type", false, false, some (.str lit),
    fun v =>
      match v with
      | .str s => if s = lit then .ok (.str s) else .error ("type must be: " ++ lit)
      | _ => .error ("type must be: " ++ lit)⟩

/-- An optional field whose absence leaves a non-type default in place
(the plain-string `predicate` fields with defaults). -/
def dfltField (name : String) (d : String) (check : Json → Except String Json) : FieldSpec :=
  ⟨name, false, false, some (.str d), check⟩

/-- Modelled from the spec: the base `Entity` fields supplied by the external
core entity library (`ga4gh.core.models.Entity`, consumed but not defined by
this repository): an optional opaque `id`, an optional `name`, an optional
`description` and free-form `extensions` (spec section 3, "Entity"). -/
def entitySpecs : List FieldSpec :=
  [optField "id" strCheck,
   optField "name" strCheck,
   optField "description" strCheck,
   optField "extensions" anyCheck]

/-- `InformationEntity.contributions`. -/
def contributionsSpec (p : Kind → Json → Except String Json) : FieldSpec :=
  optField "contributions" (listCheck (p .contribution))

/-- `InformationEntity.reportedIn: list[Document] | iriReference | None`. -/
def reportedInSpec (p : Kind → Json → Except String Json) : FieldSpec :=
  optField "reportedIn" (unionCheck [listCheck (p .document), iriCheck])

/-- `InformationEntity.specifiedBy: Method | iriReference | None`. -/
def specifiedBySpecOpt (p : Kind → Json → Except String Json) : FieldSpec :=
  optField "specifiedBy" (unionCheck [p .method, iriCheck])

/-- A profile override making `specifiedBy` required (`Method | iriReference`). -/
def specifiedBySpecReq (p : Kind → Json → Except String Json) : FieldSpec :=
  reqField "specifiedBy" (unionCheck [p .method, iriCheck])

/-- The `InformationEntity` field block. -/
def informationEntitySpecs (p : Kind → Json → Except String Json) : List FieldSpec :=
  [specifiedBySpecOpt p, contributionsSpec p, reportedInSpec p]

/-- `MappableConcept | iriReference` qualifier fields. -/
def mcOrIriCheck (p : Kind → Json → Except String Json) : Json → Except String Json :=
  unionCheck [p .mappableConcept, iriCheck]

/-- `_SubjectVariantPropositionBase.subjectVariant:
MolecularVariation | CategoricalVariant | iriReference | None` (the variant
value types are opaque external values). -/
def subjectVariantSpec : FieldSpec :=
  optField "subjectVariant" (unionCheck [opaqueObjCheck, iriCheck])

/-- The `ClinicalVariantProposition` qualifier fields. -/
def clinicalPropositionSpecs (p : Kind → Json → Except String Json) : List FieldSpec :=
  [subjectVariantSpec,
   optField "geneContextQualifier" (mcOrIriCheck p),
   optField "alleleOriginQualifier" (mcOrIriCheck p)]

/-- The tag reported with a resolved `hasEvidenceItems` element. -/
inductive EvidenceItemKind where
  | studyResult
  | statement
  | evidenceLine
  | iri
deriving DecidableEq

/-- Resolve one element of `EvidenceLine.hasEvidenceItems`, whose annotation is
`list[StudyResult | Statement | EvidenceLine | iriReference]`: try the record
variants in the declared order, and fall back to wrapping a bare string as an
`iriReference` (spec section 4.4). -/
def resolveEvidenceItem (p : Kind → Json → Except String Json) (v : Json) :
    Except String (EvidenceItemKind × Json) :=
  match p .studyResult v with
  | .ok w => .ok (.studyResult, w)
  | .error _ =>
    match p .statement v with
    | .ok w => .ok (.statement, w)
    | .error _ =>
      match p .evidenceLine v with
      | .ok w => .ok (.evidenceLine, w)
      | .error _ =>
        match v with
        | .str s => .ok (.iri, .str s)
        | _ => .error "evidence item matches no permitted variant"

/-- The `hasEvidenceItems` element check (the resolved kind tag is dropped in
the stored value). -/
def evidenceItemCheck (p : Kind → Json → Except String Json) : Json → Except String Json :=
  fun v =>
    match resolveEvidenceItem p v with
    | .ok tw => .ok tw.2
    | .error e => .error e

/-- The field specifications of every embedded record kind, each mirroring the
pydantic class declaration in the source file named in its comment.  The
`type` discriminator field is listed first; the parser callback `p` resolves
nested record fields. -/
def specsOf (p : Kind → Json → Except String Json) : Kind → List FieldSpec
  | .coding =>
    -- Modelled from the spec: external `ga4gh.core.models.Coding`
    -- (spec section 3, "Coded Concept"): a required system identifier
    -- string paired with a required code string, plus an optional id/name.
    [optField "id" strCheck,
     optField "name" strCheck,
     reqField "system" strCheck,
     reqField "code" strCheck]
  | .mappableConcept =>
    -- Modelled from the spec: external `ga4gh.core.models.MappableConcept`
    -- (spec section 3, "Coded Concept"): an optional nested `primaryCoding`
    -- and an optional display `name`, plus the id/conceptType/extensions
    -- members the repository's fixtures carry.
    [optField "id" strCheck,
     optField "conceptType" strCheck,
     optField "name" strCheck,
     optField "primaryCoding" (p .coding),
     optField "extensions" anyCheck]
  | .method =>
    -- base/core.py `Method`
    typeField "Method" :: entitySpecs ++
    [optField "subtype" (p .mappableConcept),
     optField "reportedIn" (unionCheck [p .document, iriCheck])]
  | .document =>
    -- base/core.py `Document`
    typeField "Document" :: entitySpecs ++
    [optField "subtype" (p .mappableConcept),
     optField "title" strCheck,
     optField "urls" (listCheck urlCheck),
     optField "doi" doiCheck,
     optField "pmid" numCheck]
  | .agent =>
    -- base/core.py `Agent`
    typeField "Agent" :: entitySpecs ++
    [optField "subtype" (p .mappableConcept)]
  | .contribution =>
    -- base/core.py `Contribution` (its `date: date | None` carries no
    -- default, so the member must appear, though it may be null)
    typeField "Contribution" :: entitySpecs ++
    [optField "contributor" (p .agent),
     optField "activityType" (p .mappableConcept),
     reqNullableField "date" dateCheck]
  | .dataSet =>
    -- base/core.py `DataSet`
    typeField "DataSet" :: entitySpecs ++
    [optField "subtype" (p .mappableConcept),
     optField "reportedIn" (unionCheck [p .document, iriCheck]),
     optField "releaseDate" dateCheck,
     optField "version" strCheck,
     optField "license" (p .mappableConcept)]
  | .studyGroup =>
    -- base/core.py `StudyGroup`
    typeField "StudyGroup" :: entitySpecs ++
    [optField "memberCount" numCheck,
     optField "characteristics" (listCheck (p .mappableConcept))]
  | .studyResult =>
    -- base/core.py `StudyResult`: no type literal of its own (the plain
    -- required Entity type string), a REQUIRED generic `focus`
    -- (`Entity | MappableConcept | iriReference`), and `sourceDataSet`.
    reqField "type" strCheck :: entitySpecs ++ informationEntitySpecs p ++
    [reqField "focus" (unionCheck [opaqueObjCheck, iriCheck]),
     optField "sourceDataSet" (p .dataSet)]
  | .statement =>
    -- base/core.py `Statement`
    typeField "Statement" :: entitySpecs ++ informationEntitySpecs p ++
    [reqField "proposition" (p .proposition),
     reqField "direction" (enumCheck DIRECTION_VALUES),
     optField "strength" (p .mappableConcept),
     optField "score" numCheck,
     optField "classification" (p .mappableConcept),
     optField "hasEvidenceLines" (listCheck (unionCheck [p .evidenceLine, iriCheck]))]
  | .evidenceLine =>
    -- base/core.py `EvidenceLine`
    typeField "EvidenceLine" :: entitySpecs ++ informationEntitySpecs p ++
    [optField "targetProposition" (p .proposition),
     optField "hasEvidenceItems" (listCheck (evidenceItemCheck p)),
     reqField "directionOfEvidenceProvided" (enumCheck DIRECTION_VALUES),
     optField "strengthOfEvidenceProvided" (p .mappableConcept),
     optField "scoreOfEvidenceProvided" numCheck,
     optField "evidenceOutcome" (p .mappableConcept)]
  | .cafStudyResult =>
    -- base/caf_study_result.py `CohortAlleleFrequencyStudyResult`, which
    -- subclasses the base `StudyResult` and therefore still carries its
    -- required generic `focus` field; `focusAllele` is `Allele | iriReference`
    -- with the VRS `Allele` opaque.
    typeField "CohortAlleleFrequencyStudyResult" :: entitySpecs ++ informationEntitySpecs p ++
    [reqField "focus" (unionCheck [opaqueObjCheck, iriCheck]),
     optField "sourceDataSet" (p .dataSet),
     reqField "focusAllele" (unionCheck [opaqueObjCheck, iriCheck]),
     reqField "focusAlleleCount" numCheck,
     reqField "locusAlleleCount" numCheck,
     reqField "focusAlleleFrequency" numCheck,
     reqField "cohort" (p .studyGroup),
     optField "subCohortFrequency" (listCheck (p .cafStudyResult)),
     optField "ancillaryResults" objCheck,
     optField "qualityMeasures" objCheck]
  | .proposition =>
    -- base/core.py `Proposition` (abstract shape: free-form subject/object
    -- mappings, an unconstrained predicate, the plain Entity type string)
    reqField "type" strCheck :: entitySpecs ++
    [reqField "subject" objCheck,
     reqField "predicate" strCheck,
     reqField "object" objCheck]
  | .expFunctionalImpactProposition =>
    -- base/core.py `ExperimentalVariantFunctionalImpactProposition`:
    -- `predicate: str` with default "impactsFunctionOf" (any string accepted)
    typeField "ExperimentalVariantFunctionalImpactProposition" :: entitySpecs ++
    [subjectVariantSpec,
     dfltField "predicate" "impactsFunctionOf" strCheck,
     reqField "objectSequenceFeature" (unionCheck [iriCheck, p .mappableConcept]),
     optField "experimentalContextQualifier" (unionCheck [iriCheck, p .document, objCheck])]
  | .variantDiagnosticProposition =>
    -- base/core.py `VariantDiagnosticProposition`: predicate constrained to
    -- the `DiagnosticPredicate` enum
    typeField "VariantDiagnosticProposition" :: entitySpecs ++ clinicalPropositionSpecs p ++
    [reqField "predicate"
       (enumCheck ["isDiagnosticInclusionCriterionFor", "isDiagnosticExclusionCriterionFor"]),
     reqField "objectCondition" (unionCheck [opaqueObjCheck, iriCheck])]
  | .variantOncogenicityProposition =>
    -- base/core.py `VariantOncogenicityProposition`: `predicate: str` with
    -- default "isCausalFor" (any string accepted)
    typeField "VariantOncogenicityProposition" :: entitySpecs ++ clinicalPropositionSpecs p ++
    [dfltField "predicate" "isCausalFor" strCheck,
     reqField "objectTumorType" (unionCheck [opaqueObjCheck, iriCheck])]
  | .variantPathogenicityProposition =>
    -- base/core.py `VariantPathogenicityProposition`: `predicate: str` with
    -- default "isCausalFor" (any string accepted)
    typeField "VariantPathogenicityProposition" :: entitySpecs ++ clinicalPropositionSpecs p ++
    [dfltField "predicate" "isCausalFor" strCheck,
     reqField "objectCondition" (unionCheck [opaqueObjCheck, iriCheck]),
     optField "penetranceQualifier" (p .mappableConcept),
     optField "modeOfInheritanceQualifier" (p .mappableConcept)]
  | .variantPrognosticProposition =>
    -- base/core.py `VariantPrognosticProposition`: predicate constrained to
    -- the `PrognosticPredicate` enum
    typeField "VariantPrognosticProposition" :: entitySpecs ++ clinicalPropositionSpecs p ++
    [reqField "predicate"
       (enumCheck ["associatedWithBetterOutcomeFor", "associatedWithWorseOutcomeFor"]),
     reqField "objectCondition" (unionCheck [opaqueObjCheck, iriCheck])]
  | .variantTherapeuticResponseProposition =>
    -- base/core.py `VariantTherapeuticResponseProposition`: predicate
    -- constrained to the `TherapeuticResponsePredicate` enum
    typeField "VariantTherapeuticResponseProposition" :: entitySpecs ++ clinicalPropositionSpecs p ++
    [reqField "predicate" (enumCheck ["predictsSensitivityTo", "predictsResistanceTo"]),
     reqField "objectTherapeutic" (unionCheck [opaqueObjCheck, iriCheck]),
     reqField "conditionQualifier" (unionCheck [opaqueObjCheck, iriCheck])]
  | .acmgVariantPathogenicityStatement =>
    -- acmg_2015/models.py `VariantPathogenicityStatement`: proposition made
    -- OPTIONAL (overriding the required base field), validated strength and
    -- classification, required specifiedBy
    typeField "Statement" :: entitySpecs ++
    [specifiedBySpecReq p, contributionsSpec p, reportedInSpec p,
     optField "proposition" (p .variantPathogenicityProposition),
     reqField "direction" (enumCheck DIRECTION_VALUES),
     optField "strength"
       (withValidatorOpt (p .mappableConcept)
         (fun w => acmg_2015.VariantPathogenicityStatement.validate_strength w)),
     optField "score" numCheck,
     reqField "classification"
       (withValidatorReq (p .mappableConcept)
         acmg_2015.VariantPathogenicityStatement.validate_classification),
     optField "hasEvidenceLines" (listCheck (unionCheck [p .evidenceLine, iriCheck]))]
  | .acmgFunctionalImpactEvidenceLine =>
    -- acmg_2015/models.py `VariantPathogenicityFunctionalImpactEvidenceLine`:
    -- required specifiedBy with `validate_specified_by`, a validated
    -- strengthOfEvidenceProvided and evidenceOutcome, and NO validator
    -- relating strengthOfEvidenceProvided to directionOfEvidenceProvided
    typeField "EvidenceLine" :: entitySpecs ++
    [reqField "specifiedBy"
       (withValidatorReq (unionCheck [p .method, iriCheck])
         acmg_2015.FunctionalImpactEvidenceLine.validate_specified_by),
     contributionsSpec p, reportedInSpec p,
     optField "targetProposition" (p .variantPathogenicityProposition),
     optField "hasEvidenceItems" (listCheck (evidenceItemCheck p)),
     reqField "directionOfEvidenceProvided" (enumCheck DIRECTION_VALUES),
     optField "strengthOfEvidenceProvided"
       (withValidatorOpt (p .mappableConcept)
         (fun w => acmg_2015.FunctionalImpactEvidenceLine.validate_strength_of_evidence_provided w)),
     optField "scoreOfEvidenceProvided" numCheck,
     optField "evidenceOutcome"
       (withValidatorOpt (p .mappableConcept)
         (fun w => acmg_2015.FunctionalImpactEvidenceLine.validate_evidence_outcome w))]
  | .ccvVariantOncogenicityStudyStatement =>
    -- ccv_2022/models.py `VariantOncogenicityStudyStatement`: optional
    -- proposition, validated strength and classification (whose system
    -- checks are dead stores in the source), required specifiedBy
    typeField "Statement" :: entitySpecs ++
    [specifiedBySpecReq p, contributionsSpec p, reportedInSpec p,
     optField "proposition" (p .variantOncogenicityProposition),
     reqField "direction" (enumCheck DIRECTION_VALUES),
     optField "strength"
       (withValidatorOpt (p .mappableConcept)
         (fun w => ccv_2022.VariantOncogenicityStudyStatement.validate_strength w)),
     optField "score" numCheck,
     reqField "classification"
       (withValidatorReq (p .mappableConcept)
         ccv_2022.VariantOncogenicityStudyStatement.validate_classification),
     optField "hasEvidenceLines" (listCheck (unionCheck [p .evidenceLine, iriCheck]))]

/-- Construct a record of the given kind from an input document.  The fuel
parameter bounds the nesting depth of recursive containment
(`hasEvidenceItems`, `hasEvidenceLines`, `subCohortFrequency`); parsing a
document whose depth exceeds the fuel reports an error. -/
def parseNorm : Nat → Kind → Json → Except String Json
  | 0, _, _ => .error "recursion limit exceeded"
  | n + 1, k, v => runSpecs (specsOf (parseNorm n) k) v

/-!
## Engine lemmas
-/

/-- The names of the field specifications of a kind, independent of the parser
callback. -/
def specNames (k : Kind) : List String :=
  (specsOf (fun _ _ => .error "") k).map FieldSpec.name

/-- A check that maps null-free values to normalized null-free values it then
leaves fixed. -/
def GoodCheck (c : Json → Except String Json) : Prop :=
  ∀ v w, v.nullFree = true → c v = .ok w → c w = .ok w ∧ w.nullFree = true

/-- A field specification with a good check whose default, when present, is a
null-free fixed point of the check. -/
def GoodSpec (s : FieldSpec) : Prop :=
  GoodCheck s.check ∧ ∀ d, s.dflt = some d → s.check d = .ok d ∧ d.nullFree = true

/-- The registered `type` discriminator literal of each concrete kind (absent
for the abstract shapes `Coding`, `MappableConcept`, `StudyResult` and
`Proposition`, whose `type` member is an unconstrained string). -/
def literalOf : Kind → Option String
  | .coding => none
  | .mappableConcept => none
  | .method => some "Method"
  | .document => some "Document"
  | .agent => some "Agent"
  | .contribution => some "Contribution"
  | .dataSet => some "DataSet"
  | .studyGroup => some "StudyGroup"
  | .studyResult => none
  | .statement => some "Statement"
  | .evidenceLine => some "EvidenceLine"
  | .cafStudyResult => some "CohortAlleleFrequencyStudyResult"
  | .proposition => none
  | .expFunctionalImpactProposition => some "ExperimentalVariantFunctionalImpactProposition"
  | .variantDiagnosticProposition => some "VariantDiagnosticProposition"
  | .variantOncogenicityProposition => some "VariantOncogenicityProposition"
  | .variantPathogenicityProposition => some "VariantPathogenicityProposition"
  | .variantPrognosticProposition => some "VariantPrognosticProposition"
  | .variantTherapeuticResponseProposition => some "VariantTherapeuticResponseProposition"
  | .acmgVariantPathogenicityStatement => some "Statement"
  | .acmgFunctionalImpactEvidenceLine => some "EvidenceLine"
  | .ccvVariantOncogenicityStudyStatement => some "Statement"

/-!
## Concrete input documents used by the claim theorems
-/

/-- A MappableConcept with the AAC system and code Tier I. -/
def mcTierI_AAC : Json := .obj
  [("primaryCoding", .obj
    [("system", .str "AMP/ASCO/CAP (AAC) Guidelines, 2017"), ("code", .str "Tier I")])]

/-- A MappableConcept with the ACMG system and code Tier I. -/
def mcTierI_ACMG : Json := .obj
  [("primaryCoding", .obj
    [("system", .str "ACMG Guidelines, 2015"), ("code", .str "Tier I")])]

/-- A MappableConcept with the AAC system and the unregistered code Tier V. -/
def mcTierV_AAC : Json := .obj
  [("primaryCoding", .obj
    [("system", .str "AMP/ASCO/CAP (AAC) Guidelines, 2017"), ("code", .str "Tier V")])]

/-- A MappableConcept carrying a valid CCV strength code under the WRONG
(ACMG) system: the exact shape the CCV statement strength validator is
documented to reject. -/
def mcDefinitive_ACMG : Json := .obj
  [("primaryCoding", .obj
    [("system", .str "ACMG Guidelines, 2015"), ("code", .str "definitive")])]

/-- A full CCV 2022 VariantOncogenicityStudyStatement input whose strength
carries the ACMG system instead of the required ClinGen literal. -/
def ccvWrongSystemStatement : Json := .obj
  [("direction", .str "supports"),
   ("specifiedBy", .str "method.json#/1"),
   ("strength", mcDefinitive_ACMG),
   ("classification", .obj [("primaryCoding", .obj
     [("system", .str "ClinGen Low Penetrance and Risk Allele Recommendations, 2024"),
      ("code", .str "low penetrance")])])]

/-- A valid ACMG strength-of-evidence MappableConcept. -/
def mcStrengthACMG : Json := .obj
  [("primaryCoding", .obj
    [("system", .str "ACMG Guidelines, 2015"), ("code", .str "strong")])]

/-- An inline Method whose reportedIn is populated. -/
def methodWithRI : Json := .obj
  [("type", .str "Method"), ("reportedIn", .str "document.json#/1")]

/-- An inline Method without reportedIn. -/
def methodNoRI : Json := .obj
  [("type", .str "Method"), ("name", .str "ACMG 2015 PS3 Criterion")]

/-- ACMG functional-impact EvidenceLine input: direction neutral with a
populated, field-level-valid strengthOfEvidenceProvided. -/
def elNeutralWithStrength : Json := .obj
  [("directionOfEvidenceProvided", .str "neutral"),
   ("strengthOfEvidenceProvided", mcStrengthACMG),
   ("specifiedBy", methodWithRI)]

/-- ACMG functional-impact EvidenceLine input: direction supports with
strengthOfEvidenceProvided absent. -/
def elSupportsNoStrength : Json := .obj
  [("directionOfEvidenceProvided", .str "supports"),
   ("specifiedBy", methodWithRI)]

/-- ACMG functional-impact EvidenceLine input: direction supports with a valid
strengthOfEvidenceProvided. -/
def elSupportsWithStrength : Json := .obj
  [("directionOfEvidenceProvided", .str "supports"),
   ("strengthOfEvidenceProvided", mcStrengthACMG),
   ("specifiedBy", methodWithRI)]

/-- The CohortAlleleFrequencyStudyResult input of the repository's own test
fixture (C3's scenario). -/
def cafScenarioInput : Json := .obj
  [("focusAllele", .str "allele.json#/1"),
   ("focusAlleleCount", .num 0),
   ("focusAlleleFrequency", .num 0),
   ("locusAlleleCount", .num 34086),
   ("cohort", .obj [("id", .str "ALL"), ("name", .str "Overall")])]

/-- An evidence-item document discriminated as a Statement. -/
def stmtItemDoc : Json := .obj
  [("type", .str "Statement"),
   ("proposition", .obj
     [("type", .str "VariantPathogenicityProposition"),
      ("subject", .obj [("id", .str "var1")]),
      ("predicate", .str "isCausalFor"),
      ("object", .obj [("id", .str "cond1")])]),
   ("direction", .str "supports")]

/-- An EvidenceLine input whose hasEvidenceItems holds the Statement document. -/
def elWithStmtItem : Json := .obj
  [("type", .str "EvidenceLine"),
   ("hasEvidenceItems", .arr [stmtItemDoc]),
   ("directionOfEvidenceProvided", .str "supports")]

/-- The normalized form of `stmtItemDoc`. -/
def stmtItemNorm : Json := .obj
  [("type", .str "Statement"),
   ("proposition", .obj
     [("type", .str "VariantPathogenicityProposition"),
      ("subject", .obj [("id", .str "var1")]),
      ("predicate", .str "isCausalFor"),
      ("object", .obj [("id", .str "cond1")])]),
   ("direction", .str "supports")]

/-- A VariantPathogenicityProposition input parameterized by its predicate. -/
def pathPropInput (s : String) : Json := .obj
  [("predicate", .str s), ("objectCondition", .str "condition.json#/1")]

/-- A VariantOncogenicityProposition input parameterized by its predicate. -/
def oncoPropInput (s : String) : Json := .obj
  [("predicate", .str s), ("objectTumorType", .str "tumor.json#/1")]

/-- An ExperimentalVariantFunctionalImpactProposition input parameterized by
its predicate. -/
def expPropInput (s : String) : Json := .obj
  [("predicate", .str s), ("objectSequenceFeature", .str "gene.json#/1")]

/-- A VariantDiagnosticProposition input parameterized by its predicate. -/
def diagPropInput (s : String) : Json := .obj
  [("predicate", .str s), ("objectCondition", .str "condition.json#/1")]

/-- A VariantPrognosticProposition input parameterized by its predicate. -/
def prognPropInput (s : String) : Json := .obj
  [("predicate", .str s), ("objectCondition", .str "condition.json#/1")]

/-- A VariantTherapeuticResponseProposition input parameterized by its
predicate. -/
def therPropInput (s : String) : Json := .obj
  [("predicate", .str s),
   ("objectTherapeutic", .str "therapy.json#/1"),
   ("conditionQualifier", .str "condition.json#/1")]

/-- A minimal abstract Proposition document. -/
def stmtMinimalProp : Json := .obj
  [("type", .str "Proposition"),
   ("subject", .obj []),
   ("predicate", .str "p"),
   ("object", .obj [])]

/-- A Statement input carrying an explicit null for its optional strength. -/
def stNullStrengthInput : Json := .obj
  [("type", .str "Statement"),
   ("proposition", stmtMinimalProp),
   ("direction", .str "supports"),
   ("strength", .null)]

/-- A Statement evidence-item document with its `type` member omitted. -/
def stmtItemNoType : Json := .obj
  [("proposition", stmtMinimalProp),
   ("direction", .str "supports")]

/-- An EvidenceLine input whose evidence item omits its `type` member. -/
def elWithUntypedItem : Json := .obj
  [("hasEvidenceItems", .arr [stmtItemNoType]),
   ("directionOfEvidenceProvided", .str "supports")]

/-- ACMG functional-impact EvidenceLine whose specifiedBy Method lacks
reportedIn. -/
def elMethodNoRI : Json := .obj
  [("directionOfEvidenceProvided", .str "supports"), ("specifiedBy", methodNoRI)]

/-- ACMG functional-impact EvidenceLine whose specifiedBy Method carries
reportedIn. -/
def elMethodWithRI : Json := .obj
  [("directionOfEvidenceProvided", .str "supports"), ("specifiedBy", methodWithRI)]

/-- ACMG functional-impact EvidenceLine whose specifiedBy is a bare reference
string. -/
def elRefSpecifiedBy : Json := .obj
  [("directionOfEvidenceProvided", .str "supports"), ("specifiedBy", .str "method.json#/1")]

/-- An ACMG VariantPathogenicityStatement input with NO proposition member. -/
def vpsNoProposition : Json := .obj
  [("direction", .str "supports"),
   ("classification", .obj [("primaryCoding", .obj
     [("system", .str "ACMG Guidelines, 2015"), ("code", .str "pathogenic")])]),
   ("specifiedBy", .str "method.json#/1")]

/-- A minimal Agent input used by the round-trip and discriminator witnesses. -/
def agentInput : Json := .obj [("name", .str "Joe")]

/-- The normalized Agent record constructed from `agentInput`. -/
def agentNorm : Json := .obj [("type", .str "Agent"), ("name", .str "Joe")]

theorem specsOf_map_name (p : Kind → Json → Except String Json) (k : Kind) :
    (specsOf p k).map FieldSpec.name = specNames k := by
  cases k <;> rfl

theorem isNull_eq_false (v : Json) (h : v ≠ .null) : v.isNull = false := by
  cases v
  case null => exact absurd rfl h
  all_goals rfl

theorem ne_null_of_isNull_eq_false (v : Json) (h : v.isNull = false) : v ≠ .null := by
  cases v <;> simp [Json.isNull] at h ⊢

theorem lookup_cons_ne (a k : String) (x : Json) (flds : List (String × Json)) (h : a ≠ k) :
    List.lookup a ((k, x) :: flds) = List.lookup a flds := by
  have hb : (a == k) = false := beq_eq_false_iff_ne.mpr h
  simp [List.lookup, hb]

theorem lookup_of_mem_nodup :
    ∀ (flds : List (String × Json)), (flds.map Prod.fst).Nodup →
      ∀ k v, (k, v) ∈ flds → List.lookup k flds = some v := by
  intro flds
  induction flds with
  | nil => intro _ k v h; cases h
  | cons kv t ih =>
    intro hnd k v hm
    obtain ⟨a, b⟩ := kv
    rcases List.mem_cons.mp hm with h | h
    · cases h
      simp [List.lookup]
    · rw [List.map_cons] at hnd
      obtain ⟨ha, ht⟩ := List.nodup_cons.mp hnd
      have hk : k ≠ a := by
        intro he
        subst he
        exact ha (List.mem_map.mpr ⟨(k, v), h, rfl⟩)
      rw [lookup_cons_ne k a b t hk]
      exact ih ht k v h

theorem nullFree_of_lookup :
    ∀ (flds : List (String × Json)), Json.nullFreePairs flds = true →
      ∀ k v, List.lookup k flds = some v → v.nullFree = true := by
  intro flds
  induction flds with
  | nil => intro _ k v h; simp [List.lookup] at h
  | cons kv t ih =>
    intro hnf k v h
    obtain ⟨a, b⟩ := kv
    rw [Json.nullFreePairs] at hnf
    obtain ⟨hb, ht⟩ := by simpa using hnf
    by_cases hk : k = a
    · subst hk
      simp [List.lookup] at h
      cases h
      exact hb
    · rw [lookup_cons_ne k a b t hk] at h
      exact ih ht k v h

/-- Unpacking one step of `runSpecsAux`: a successful run of `s :: rest` yields
a successful run of `rest` whose output embeds into the full output. -/
theorem runSpecsAux_ok_tail (s : FieldSpec) (rest : List FieldSpec)
    (flds out : List (String × Json))
    (h : runSpecsAux (s :: rest) flds = .ok out) :
    ∃ out₁, runSpecsAux rest flds = .ok out₁ ∧ ∀ x ∈ out₁, x ∈ out := by
  rw [runSpecsAux] at h
  split at h
  · split at h
    · split at h
      · rename_i out₁ heq
        cases h
        exact ⟨out₁, heq, fun x hx => List.mem_cons_of_mem _ hx⟩
      · cases h
    · split at h
      · cases h
      · exact ⟨out, h, fun x hx => hx⟩
  · split at h
    · split at h
      · exact ⟨out, h, fun x hx => hx⟩
      · cases h
    · split at h
      · cases h
      · split at h
        · rename_i out₁ heq
          cases h
          exact ⟨out₁, heq, fun x hx => List.mem_cons_of_mem _ hx⟩
        · cases h

/-- Every present, non-null member whose key names a field specification is
validated by that field's check and its normalized value is stored in the
output. -/
theorem runSpecsAux_preserves :
    ∀ (specs : List FieldSpec) (flds out : List (String × Json)),
      runSpecsAux specs flds = .ok out →
      ∀ s ∈ specs, ∀ v, List.lookup s.name flds = some v → v.isNull = false →
      ∃ w, s.check v = .ok w ∧ (s.name, w) ∈ out := by
  intro specs
  induction specs with
  | nil => intro flds out _ s hs; cases hs
  | cons s0 rest ih =>
    intro flds out h s hs v hl hv
    rcases List.mem_cons.mp hs with rfl | hs
    · simp only [runSpecsAux, hl, hv, Bool.false_eq_true, if_false] at h
      cases hc : s.check v with
      | error e => rw [hc] at h; cases h
      | ok w =>
        rw [hc] at h
        cases hr : runSpecsAux rest flds with
        | error e => rw [hr] at h; cases h
        | ok out₁ =>
          rw [hr] at h
          cases h
          exact ⟨w, rfl, List.mem_cons_self _ _⟩
    · obtain ⟨out₁, h₁, hsub⟩ := runSpecsAux_ok_tail s0 rest flds out h
      obtain ⟨w, hw, hm⟩ := ih flds out₁ h₁ s hs v hl hv
      exact ⟨w, hw, hsub _ hm⟩

/-- Every non-nullable field that is required or defaulted appears in the
output of a successful run. -/
theorem runSpecsAux_present :
    ∀ (specs : List FieldSpec) (flds out : List (String × Json)),
      runSpecsAux specs flds = .ok out →
      ∀ s ∈ specs, (s.required = true ∨ s.dflt.isSome = true) → s.nullable = false →
      ∃ w, (s.name, w) ∈ out := by
  intro specs
  induction specs with
  | nil => intro flds out _ s hs; cases hs
  | cons s0 rest ih =>
    intro flds out h s hs hreq hnn
    rcases List.mem_cons.mp hs with rfl | hs
    · cases hl : List.lookup s.name flds with
      | none =>
        simp only [runSpecsAux, hl] at h
        cases hd : s.dflt with
        | some d =>
          rw [hd] at h
          cases hr : runSpecsAux rest flds with
          | error e => rw [hr] at h; cases h
          | ok out₁ =>
            rw [hr] at h
            cases h
            exact ⟨d, List.mem_cons_self _ _⟩
        | none =>
          rw [hd] at h
          rcases hreq with hr1 | hdf
          · rw [hr1] at h; simp at h
          · rw [hd] at hdf; simp at hdf
      | some v =>
        simp only [runSpecsAux, hl] at h
        cases hn : v.isNull with
        | true =>
          rw [hn] at h
          simp only [if_true] at h
          rw [hnn] at h
          simp at h
        | false =>
          rw [hn] at h
          simp only [Bool.false_eq_true, if_false] at h
          cases hc : s.check v with
          | error e => rw [hc] at h; cases h
          | ok w =>
            rw [hc] at h
            cases hr : runSpecsAux rest flds with
            | error e => rw [hr] at h; cases h
            | ok out₁ =>
              rw [hr] at h
              cases h
              exact ⟨w, List.mem_cons_self _ _⟩
    · obtain ⟨out₁, h₁, hsub⟩ := runSpecsAux_ok_tail s0 rest flds out h
      obtain ⟨w, hm⟩ := ih flds out₁ h₁ s hs hreq hnn
      exact ⟨w, hsub _ hm⟩

theorem isNull_eq_false_of_nullFree (v : Json) (h : v.nullFree = true) : v.isNull = false := by
  cases v
  case null => rw [Json.nullFree] at h; cases h
  all_goals rfl

theorem lookup_eq_none_of_not_mem :
    ∀ (flds : List (String × Json)) (k : String), k ∉ flds.map Prod.fst →
      List.lookup k flds = none := by
  intro flds
  induction flds with
  | nil => intro k _; rfl
  | cons kv t ih =>
    intro k hk
    obtain ⟨a, b⟩ := kv
    rw [List.map_cons] at hk
    have h1 : k ≠ a := fun he => hk (by rw [he]; exact List.mem_cons_self _ _)
    rw [lookup_cons_ne k a b t h1]
    exact ih k (fun hm => hk (List.mem_cons_of_mem _ hm))

/-- Every output member's key names one of the field specifications. -/
theorem runSpecsAux_keys :
    ∀ (specs : List FieldSpec) (flds out : List (String × Json)),
      runSpecsAux specs flds = .ok out →
      ∀ kv ∈ out, kv.1 ∈ specs.map FieldSpec.name := by
  intro specs
  induction specs with
  | nil =>
    intro flds out h kv hkv
    cases h
    cases hkv
  | cons s rest ih =>
    intro flds out h kv hkv
    cases hl : List.lookup s.name flds with
    | none =>
      simp only [runSpecsAux, hl] at h
      cases hd : s.dflt with
      | some d =>
        rw [hd] at h
        cases hr : runSpecsAux rest flds with
        | error e => rw [hr] at h; cases h
        | ok out₁ =>
          rw [hr] at h
          cases h
          rcases List.mem_cons.mp hkv with rfl | hm
          · exact List.mem_cons_self _ _
          · exact List.mem_cons_of_mem _ (ih flds out₁ hr kv hm)
      | none =>
        rw [hd] at h
        cases hreq : s.required with
        | true => rw [hreq] at h; simp at h
        | false =>
          rw [hreq] at h
          simp only [Bool.false_eq_true, if_false] at h
          exact List.mem_cons_of_mem _ (ih flds out h kv hkv)
    | some v =>
      simp only [runSpecsAux, hl] at h
      cases hn : v.isNull with
      | true =>
        rw [hn] at h
        simp only [if_true] at h
        cases hnl : s.nullable with
        | true =>
          rw [hnl] at h
          simp only [if_true] at h
          exact List.mem_cons_of_mem _ (ih flds out h kv hkv)
        | false => rw [hnl] at h; simp at h
      | false =>
        rw [hn] at h
        simp only [Bool.false_eq_true, if_false] at h
        cases hc : s.check v with
        | error e => rw [hc] at h; cases h
        | ok w =>
          rw [hc] at h
          cases hr : runSpecsAux rest flds with
          | error e => rw [hr] at h; cases h
          | ok out₁ =>
            rw [hr] at h
            cases h
            rcases List.mem_cons.mp hkv with rfl | hm
            · exact List.mem_cons_self _ _
            · exact List.mem_cons_of_mem _ (ih flds out₁ hr kv hm)

/-- Field specifications ignore members whose key they do not name. -/
theorem runSpecsAux_skip :
    ∀ (specs : List FieldSpec) (k : String) (x : Json) (flds : List (String × Json)),
      (∀ s ∈ specs, s.name ≠ k) →
      runSpecsAux specs ((k, x) :: flds) = runSpecsAux specs flds := by
  intro specs
  induction specs with
  | nil => intro k x flds _; rfl
  | cons s rest ih =>
    intro k x flds hne
    have h1 : s.name ≠ k := hne s (List.mem_cons_self _ _)
    have h2 : ∀ t ∈ rest, t.name ≠ k := fun t ht => hne t (List.mem_cons_of_mem _ ht)
    rw [runSpecsAux, runSpecsAux, lookup_cons_ne s.name k x flds h1, ih k x flds h2]

/-- Engine idempotence: re-running the field specifications on the normalized
output of a successful run reproduces that output exactly, and the output is
null-free. -/
theorem runSpecsAux_idem :
    ∀ (specs : List FieldSpec), (specs.map FieldSpec.name).Nodup →
      (∀ s ∈ specs, GoodSpec s) →
      ∀ flds out, Json.nullFreePairs flds = true →
        runSpecsAux specs flds = .ok out →
        runSpecsAux specs out = .ok out ∧ Json.nullFreePairs out = true := by
  intro specs
  induction specs with
  | nil =>
    intro _ _ flds out _ h
    cases h
    exact ⟨rfl, rfl⟩
  | cons s rest ih =>
    intro hnd hgood flds out hnf h
    rw [List.map_cons] at hnd
    obtain ⟨hnotin, hndr⟩ := List.nodup_cons.mp hnd
    have hgs : GoodSpec s := hgood s (List.mem_cons_self _ _)
    have hgr : ∀ t ∈ rest, GoodSpec t := fun t ht => hgood t (List.mem_cons_of_mem _ ht)
    have hner : ∀ t ∈ rest, t.name ≠ s.name := by
      intro t ht he
      exact hnotin (he ▸ List.mem_map.mpr ⟨t, ht, rfl⟩)
    cases hl : List.lookup s.name flds with
    | none =>
      simp only [runSpecsAux, hl] at h
      cases hd : s.dflt with
      | some d =>
        rw [hd] at h
        cases hr : runSpecsAux rest flds with
        | error e => rw [hr] at h; cases h
        | ok out₁ =>
          rw [hr] at h
          cases h
          obtain ⟨hcd, hdnf⟩ := hgs.2 d hd
          obtain ⟨hidem, hnf₁⟩ := ih hndr hgr flds out₁ hnf hr
          constructor
          · have hlk : List.lookup s.name ((s.name, d) :: out₁) = some d := by
              simp [List.lookup]
            simp only [runSpecsAux, hlk, isNull_eq_false_of_nullFree d hdnf,
              Bool.false_eq_true, if_false, hcd,
              runSpecsAux_skip rest s.name d out₁ hner, hidem]
          · rw [Json.nullFreePairs]
            simp [hdnf, hnf₁]
      | none =>
        rw [hd] at h
        cases hreq : s.required with
        | true => rw [hreq] at h; simp at h
        | false =>
          rw [hreq] at h
          simp only [Bool.false_eq_true, if_false] at h
          obtain ⟨hidem, hnf₁⟩ := ih hndr hgr flds out hnf h
          constructor
          · have hout : List.lookup s.name out = none := by
              apply lookup_eq_none_of_not_mem
              intro hm
              obtain ⟨kv, hkv, hke⟩ := List.mem_map.mp hm
              have := runSpecsAux_keys rest flds out h kv hkv
              rw [hke] at this
              exact hnotin this
            simp only [runSpecsAux, hout, hd, hreq, Bool.false_eq_true, if_false]
            exact hidem
          · exact hnf₁
    | some v =>
      have hvnf : v.nullFree = true := nullFree_of_lookup flds hnf s.name v hl
      simp only [runSpecsAux, hl, isNull_eq_false_of_nullFree v hvnf,
        Bool.false_eq_true, if_false] at h
      cases hc : s.check v with
      | error e => rw [hc] at h; cases h
      | ok w =>
        rw [hc] at h
        cases hr : runSpecsAux rest flds with
        | error e => rw [hr] at h; cases h
        | ok out₁ =>
          rw [hr] at h
          cases h
          obtain ⟨hcw, hwnf⟩ := hgs.1 v w hvnf hc
          obtain ⟨hidem, hnf₁⟩ := ih hndr hgr flds out₁ hnf hr
          constructor
          · have hlk : List.lookup s.name ((s.name, w) :: out₁) = some w := by
              simp [List.lookup]
            simp only [runSpecsAux, hlk, isNull_eq_false_of_nullFree w hwnf,
              Bool.false_eq_true, if_false, hcw,
              runSpecsAux_skip rest s.name w out₁ hner, hidem]
          · rw [Json.nullFreePairs]
            simp [hwnf, hnf₁]

/-!
## Goodness of the field checks
-/

/-- A passthrough check (one that returns accepted values unchanged) is good. -/
theorem goodCheck_of_passthrough (c : Json → Except String Json)
    (h : ∀ v w, c v = .ok w → w = v) : GoodCheck c := by
  intro v w hnf hc
  have he := h v w hc
  subst he
  exact ⟨hc, hnf⟩

theorem passthrough_strCheck : ∀ v w, strCheck v = .ok w → w = v := by
  intro v w h
  cases v <;> simp_all [strCheck]

theorem good_strCheck : GoodCheck strCheck :=
  goodCheck_of_passthrough strCheck passthrough_strCheck

theorem passthrough_numCheck : ∀ v w, numCheck v = .ok w → w = v := by
  intro v w h
  cases v <;> simp_all [numCheck]

theorem good_numCheck : GoodCheck numCheck :=
  goodCheck_of_passthrough numCheck passthrough_numCheck

theorem passthrough_iriCheck : ∀ v w, iriCheck v = .ok w → w = v := by
  intro v w h
  cases v <;> simp_all [iriCheck]

theorem good_iriCheck : GoodCheck iriCheck :=
  goodCheck_of_passthrough iriCheck passthrough_iriCheck

theorem passthrough_objCheck : ∀ v w, objCheck v = .ok w → w = v := by
  intro v w h
  cases v <;> simp_all [objCheck]

theorem good_objCheck : GoodCheck objCheck :=
  goodCheck_of_passthrough objCheck passthrough_objCheck

theorem passthrough_anyCheck : ∀ v w, anyCheck v = .ok w → w = v := by
  intro v w h
  simp_all [anyCheck]

theorem good_anyCheck : GoodCheck anyCheck :=
  goodCheck_of_passthrough anyCheck passthrough_anyCheck

theorem passthrough_enumCheck (allowed : List String) :
    ∀ v w, enumCheck allowed v = .ok w → w = v := by
  intro v w h
  cases v <;> simp [enumCheck] at h
  split at h
  · cases h; rfl
  · cases h

theorem good_enumCheck (allowed : List String) : GoodCheck (enumCheck allowed) :=
  goodCheck_of_passthrough (enumCheck allowed) (passthrough_enumCheck allowed)

theorem passthrough_dateCheck : ∀ v w, dateCheck v = .ok w → w = v := by
  intro v w h
  cases v <;> simp [dateCheck] at h
  split at h
  · cases h; rfl
  · cases h

theorem good_dateCheck : GoodCheck dateCheck :=
  goodCheck_of_passthrough dateCheck passthrough_dateCheck

theorem passthrough_urlCheck : ∀ v w, urlCheck v = .ok w → w = v := by
  intro v w h
  cases v <;> simp [urlCheck] at h
  split at h
  · cases h; rfl
  · cases h

theorem good_urlCheck : GoodCheck urlCheck :=
  goodCheck_of_passthrough urlCheck passthrough_urlCheck

theorem passthrough_doiCheck : ∀ v w, doiCheck v = .ok w → w = v := by
  intro v w h
  cases v <;> simp [doiCheck] at h
  split at h
  · cases h; rfl
  · cases h

theorem good_doiCheck : GoodCheck doiCheck :=
  goodCheck_of_passthrough doiCheck passthrough_doiCheck

theorem mapCheck_idem (c : Json → Except String Json) (hc : GoodCheck c) :
    ∀ (xs ws : List Json), Json.nullFreeList xs = true → mapCheck c xs = .ok ws →
      mapCheck c ws = .ok ws ∧ Json.nullFreeList ws = true := by
  intro xs
  induction xs with
  | nil =>
    intro ws _ h
    cases h
    exact ⟨rfl, rfl⟩
  | cons x t ih =>
    intro ws hnf h
    rw [Json.nullFreeList] at hnf
    obtain ⟨hx, ht⟩ := by simpa using hnf
    rw [mapCheck] at h
    cases hcx : c x with
    | error e => rw [hcx] at h; cases h
    | ok w =>
      rw [hcx] at h
      cases hr : mapCheck c t with
      | error e => rw [hr] at h; cases h
      | ok ws₁ =>
        rw [hr] at h
        cases h
        obtain ⟨hcw, hwnf⟩ := hc x w hx hcx
        obtain ⟨hmi, hnfl⟩ := ih ws₁ ht hr
        constructor
        · rw [mapCheck, hcw, hmi]
        · rw [Json.nullFreeList]
          simp [hwnf, hnfl]

theorem good_listCheck (c : Json → Except String Json) (hc : GoodCheck c) :
    GoodCheck (listCheck c) := by
  intro v w hnf h
  cases v <;> simp only [listCheck] at h <;> try cases h
  rename_i xs
  cases hm : mapCheck c xs with
  | error e => rw [hm] at h; cases h
  | ok ws =>
    rw [hm] at h
    cases h
    rw [Json.nullFree] at hnf
    obtain ⟨hmi, hnfl⟩ := mapCheck_idem c hc xs ws hnf hm
    constructor
    · simp only [listCheck, hmi]
    · rw [Json.nullFree]
      exact hnfl

/-!
## Shape facts about the parser
-/

theorem parseNorm_ok_obj (n : Nat) (k : Kind) (v w : Json)
    (h : parseNorm n k v = .ok w) :
    (∃ out, w = .obj out) ∧ (∃ flds, v = .obj flds) := by
  cases n with
  | zero => simp [parseNorm] at h
  | succ m =>
    rw [parseNorm] at h
    cases v <;> simp only [runSpecs] at h <;> try cases h
    rename_i flds
    split at h
    · cases hr : runSpecsAux (specsOf (parseNorm m) k) flds with
      | error e => rw [hr] at h; cases h
      | ok out =>
        rw [hr] at h
        cases h
        exact ⟨⟨out, rfl⟩, ⟨flds, rfl⟩⟩
    · cases h

theorem parseNorm_not_obj (n : Nat) (k : Kind) (v : Json)
    (hv : ∀ kvs, v ≠ .obj kvs) : ∃ e, parseNorm n k v = .error e := by
  cases n with
  | zero => exact ⟨"recursion limit exceeded", rfl⟩
  | succ m =>
    rw [parseNorm]
    cases v <;> first
      | exact ⟨"input must be an object", rfl⟩
      | exact absurd rfl (hv _)

theorem parseNorm_str_error (n : Nat) (k : Kind) (s : String) :
    ∃ e, parseNorm n k (.str s) = .error e :=
  parseNorm_not_obj n k (.str s) (fun _ h => by cases h)

/-!
## Goodness of union and validator checks
-/

/-- The opaque-object / reference union used for external one-of fields is a
passthrough. -/
theorem passthrough_obj_iri : ∀ v w,
    unionCheck [opaqueObjCheck, iriCheck] v = .ok w → w = v := by
  intro v w h
  cases v <;> simp_all [unionCheck, opaqueObjCheck, objCheck, iriCheck]

theorem good_obj_iri : GoodCheck (unionCheck [opaqueObjCheck, iriCheck]) :=
  goodCheck_of_passthrough _ passthrough_obj_iri

/-- Goodness of a `Record | iriReference` union: the record branch is a good
object-producing parser, so re-validating its output picks the same branch; a
string falls through to the reference branch both times. -/
theorem good_parser_iri (f : Json → Except String Json)
    (hidem : ∀ v w, v.nullFree = true → f v = .ok w → f w = .ok w ∧ w.nullFree = true)
    (hstr : ∀ s, ∃ e, f (.str s) = .error e) :
    GoodCheck (unionCheck [f, iriCheck]) := by
  intro v w hnf h
  simp only [unionCheck] at h
  cases hf : f v with
  | ok w₁ =>
    rw [hf] at h
    cases h
    obtain ⟨hfw, hwnf⟩ := hidem v w hnf hf
    refine ⟨?_, hwnf⟩
    simp only [unionCheck, hfw]
  | error e =>
    rw [hf] at h
    cases v with
    | str s =>
      simp only [iriCheck] at h
      cases h
      obtain ⟨e₂, he₂⟩ := hstr s
      refine ⟨?_, hnf⟩
      simp only [unionCheck, he₂, iriCheck]
    | null => simp only [iriCheck] at h; cases h
    | num a => simp only [iriCheck] at h; cases h
    | bool a => simp only [iriCheck] at h; cases h
    | arr a => simp only [iriCheck] at h; cases h
    | obj a => simp only [iriCheck] at h; cases h

/-- Goodness of a `list[Record] | iriReference` union (`reportedIn`). -/
theorem good_listparser_iri (f : Json → Except String Json)
    (hidem : ∀ v w, v.nullFree = true → f v = .ok w → f w = .ok w ∧ w.nullFree = true) :
    GoodCheck (unionCheck [listCheck f, iriCheck]) := by
  intro v w hnf h
  simp only [unionCheck] at h
  cases hf : listCheck f v with
  | ok w₁ =>
    rw [hf] at h
    cases h
    obtain ⟨hfw, hwnf⟩ := good_listCheck f hidem v w hnf hf
    refine ⟨?_, hwnf⟩
    simp only [unionCheck, hfw]
  | error e =>
    rw [hf] at h
    cases v with
    | str s =>
      simp only [iriCheck] at h
      cases h
      refine ⟨?_, hnf⟩
      simp only [unionCheck, listCheck, iriCheck]
    | null => simp only [iriCheck] at h; cases h
    | num a => simp only [iriCheck] at h; cases h
    | bool a => simp only [iriCheck] at h; cases h
    | arr a => simp only [iriCheck] at h; cases h
    | obj a => simp only [iriCheck] at h; cases h

/-- Goodness of an `iriReference | Record` union (`objectSequenceFeature`). -/
theorem good_iri_record (f : Json → Except String Json)
    (hidem : ∀ v w, v.nullFree = true → f v = .ok w → f w = .ok w ∧ w.nullFree = true)
    (hobj : ∀ v w, f v = .ok w → ∃ out, w = .obj out) :
    GoodCheck (unionCheck [iriCheck, f]) := by
  intro v w hnf h
  simp only [unionCheck] at h
  cases v with
  | str s =>
    simp only [iriCheck] at h
    cases h
    exact ⟨by simp only [unionCheck, iriCheck], hnf⟩
  | _ =>
    simp only [iriCheck] at h
    cases hf : f _ with
    | error e => rw [hf] at h; cases h
    | ok w₁ =>
      rw [hf] at h
      cases h
      obtain ⟨hfw, hwnf⟩ := hidem _ w hnf hf
      obtain ⟨out, hout⟩ := hobj _ w hf
      subst hout
      refine ⟨?_, hwnf⟩
      simp only [unionCheck, iriCheck, hfw]

/-- Goodness of the `iriReference | Document | dict` union
(`experimentalContextQualifier`). -/
theorem good_iri_parser_obj (f : Json → Except String Json)
    (hidem : ∀ v w, v.nullFree = true → f v = .ok w → f w = .ok w ∧ w.nullFree = true)
    (hobj : ∀ v w, f v = .ok w → ∃ out, w = .obj out) :
    GoodCheck (unionCheck [iriCheck, f, objCheck]) := by
  intro v w hnf h
  simp only [unionCheck] at h
  cases v with
  | str s =>
    simp only [iriCheck] at h
    cases h
    exact ⟨by simp only [unionCheck, iriCheck], hnf⟩
  | obj kvs =>
    simp only [iriCheck] at h
    cases hf : f (.obj kvs) with
    | ok w₁ =>
      rw [hf] at h
      cases h
      obtain ⟨hfw, hwnf⟩ := hidem _ w hnf hf
      obtain ⟨out, hout⟩ := hobj _ w hf
      subst hout
      refine ⟨?_, hwnf⟩
      simp only [unionCheck, iriCheck, hfw]
    | error e =>
      rw [hf] at h
      simp only [objCheck] at h
      cases h
      refine ⟨?_, hnf⟩
      simp only [unionCheck, iriCheck, hf, objCheck]
  | _ =>
    simp only [iriCheck] at h
    cases hf : f _ with
    | ok w₁ =>
      rw [hf] at h
      cases h
      obtain ⟨hfw, hwnf⟩ := hidem _ w hnf hf
      obtain ⟨out, hout⟩ := hobj _ w hf
      subst hout
      refine ⟨?_, hwnf⟩
      simp only [unionCheck, iriCheck, hfw]
    | error e =>
      rw [hf] at h
      simp only [objCheck] at h
      cases h

/-- A field validator composed after a good parse is good: the validator only
inspects the already-normalized value, so it reaches the same verdict when the
field is re-validated. -/
theorem good_withValidatorOpt (parse : Json → Except String Json)
    (validator : Option Json → Except String (Option Json))
    (hp : GoodCheck parse) : GoodCheck (withValidatorOpt parse validator) := by
  intro v w hnf h
  simp only [withValidatorOpt] at h
  cases hf : parse v with
  | error e => rw [hf] at h; cases h
  | ok w₁ =>
    simp only [hf] at h
    cases hv : validator (some w₁) with
    | error e => simp only [hv] at h; cases h
    | ok u =>
      simp only [hv] at h
      cases h
      obtain ⟨hfw, hwnf⟩ := hp v w hnf hf
      refine ⟨?_, hwnf⟩
      simp only [withValidatorOpt, hfw, hv]

/-- As `good_withValidatorOpt`, for validators of required fields. -/
theorem good_withValidatorReq (parse : Json → Except String Json)
    (validator : Json → Except String Json)
    (hp : GoodCheck parse) : GoodCheck (withValidatorReq parse validator) := by
  intro v w hnf h
  simp only [withValidatorReq] at h
  cases hf : parse v with
  | error e => rw [hf] at h; cases h
  | ok w₁ =>
    simp only [hf] at h
    cases hv : validator w₁ with
    | error e => simp only [hv] at h; cases h
    | ok u =>
      simp only [hv] at h
      cases h
      obtain ⟨hfw, hwnf⟩ := hp v w hnf hf
      refine ⟨?_, hwnf⟩
      simp only [withValidatorReq, hfw, hv]

/-!
## Branch stability of evidence-item resolution
-/

theorem specNames_nodup (k : Kind) : (specNames k).Nodup := by
  cases k <;> decide

/-- An object carrying a member whose key no field specification names is
rejected. -/
theorem parseNorm_extra_error (n : Nat) (k : Kind) (flds : List (String × Json))
    (key : String) (x : Json) (hmem : (key, x) ∈ flds) (hnot : key ∉ specNames k) :
    ∃ e, parseNorm n k (.obj flds) = .error e := by
  cases n with
  | zero => exact ⟨"recursion limit exceeded", rfl⟩
  | succ m =>
    rw [parseNorm]
    simp only [runSpecs]
    have hne : noExtraKeys (specsOf (parseNorm m) k) flds = false := by
      cases hcase : noExtraKeys (specsOf (parseNorm m) k) flds with
      | false => rfl
      | true =>
        exfalso
        rw [noExtraKeys, List.all_eq_true] at hcase
        have h2 := hcase (key, x) hmem
        rw [List.any_eq_true] at h2
        obtain ⟨s, hs, he⟩ := h2
        apply hnot
        rw [← specsOf_map_name (parseNorm m) k]
        exact List.mem_map.mpr ⟨s, hs, by simpa using he⟩
    rw [hne]
    exact ⟨"extra inputs are not permitted", by simp⟩

/-- Any successfully constructed base `Statement` record carries its required
`proposition` member. -/
theorem statement_has_proposition (n : Nat) (v : Json) (out : List (String × Json))
    (h : parseNorm n .statement v = .ok (.obj out)) :
    ∃ x, ("proposition", x) ∈ out := by
  cases n with
  | zero => simp [parseNorm] at h
  | succ m =>
    rw [parseNorm] at h
    cases v <;> simp only [runSpecs] at h <;> try cases h
    rename_i flds
    split at h
    · cases hr : runSpecsAux (specsOf (parseNorm m) .statement) flds with
      | error e => rw [hr] at h; cases h
      | ok out₁ =>
        rw [hr] at h
        cases h
        have hs : reqField "proposition" (parseNorm m Kind.proposition)
            ∈ specsOf (parseNorm m) .statement := by
          simp [specsOf, entitySpecs, informationEntitySpecs, contributionsSpec,
            reportedInSpec, specifiedBySpecOpt]
        exact runSpecsAux_present _ flds _ hr _ hs (Or.inl rfl) rfl
    · cases h

/-- Any successfully constructed base `EvidenceLine` record carries its
required `directionOfEvidenceProvided` member. -/
theorem evidenceLine_has_direction (n : Nat) (v : Json) (out : List (String × Json))
    (h : parseNorm n .evidenceLine v = .ok (.obj out)) :
    ∃ x, ("directionOfEvidenceProvided", x) ∈ out := by
  cases n with
  | zero => simp [parseNorm] at h
  | succ m =>
    rw [parseNorm] at h
    cases v <;> simp only [runSpecs] at h <;> try cases h
    rename_i flds
    split at h
    · cases hr : runSpecsAux (specsOf (parseNorm m) .evidenceLine) flds with
      | error e => rw [hr] at h; cases h
      | ok out₁ =>
        rw [hr] at h
        cases h
        have hs : reqField "directionOfEvidenceProvided" (enumCheck DIRECTION_VALUES)
            ∈ specsOf (parseNorm m) .evidenceLine := by
          simp [specsOf, entitySpecs, informationEntitySpecs, contributionsSpec,
            reportedInSpec, specifiedBySpecOpt]
        exact runSpecsAux_present _ flds _ hr _ hs (Or.inl rfl) rfl
    · cases h

theorem proposition_not_in_studyResult_names : "proposition" ∉ specNames Kind.studyResult := by
  decide

theorem direction_not_in_studyResult_names :
    "directionOfEvidenceProvided" ∉ specNames Kind.studyResult := by
  decide

theorem direction_not_in_statement_names :
    "directionOfEvidenceProvided" ∉ specNames Kind.statement := by
  decide

/-- Goodness of evidence-item resolution: resolving the normalized output
again picks the same branch, because each record variant's distinguishing
required member is rejected as an extra key by the earlier variants. -/
theorem good_evidenceItemCheck (n : Nat)
    (hidem : ∀ k v w, v.nullFree = true → parseNorm n k v = .ok w →
      parseNorm n k w = .ok w ∧ w.nullFree = true) :
    GoodCheck (evidenceItemCheck (parseNorm n)) := by
  intro v w hnf h
  simp only [evidenceItemCheck] at h
  cases hr : resolveEvidenceItem (parseNorm n) v with
  | error e => rw [hr] at h; cases h
  | ok tw =>
    rw [hr] at h
    cases h
    simp only [resolveEvidenceItem] at hr
    cases hsr : parseNorm n .studyResult v with
    | ok w₁ =>
      rw [hsr] at hr
      cases hr
      obtain ⟨hw, hwnf⟩ := hidem .studyResult v w₁ hnf hsr
      refine ⟨?_, hwnf⟩
      simp only [evidenceItemCheck, resolveEvidenceItem, hw]
    | error e1 =>
      rw [hsr] at hr
      cases hst : parseNorm n .statement v with
      | ok w₁ =>
        rw [hst] at hr
        cases hr
        obtain ⟨hw, hwnf⟩ := hidem .statement v w₁ hnf hst
        obtain ⟨⟨out, hout⟩, _⟩ := parseNorm_ok_obj n .statement v w₁ hst
        subst hout
        obtain ⟨x, hx⟩ := statement_has_proposition n v out hst
        obtain ⟨e₂, he₂⟩ := parseNorm_extra_error n .studyResult out "proposition" x hx
          proposition_not_in_studyResult_names
        refine ⟨?_, hwnf⟩
        simp only [evidenceItemCheck, resolveEvidenceItem, he₂, hw]
      | error e2 =>
        rw [hst] at hr
        cases hel : parseNorm n .evidenceLine v with
        | ok w₁ =>
          rw [hel] at hr
          cases hr
          obtain ⟨hw, hwnf⟩ := hidem .evidenceLine v w₁ hnf hel
          obtain ⟨⟨out, hout⟩, _⟩ := parseNorm_ok_obj n .evidenceLine v w₁ hel
          subst hout
          obtain ⟨x, hx⟩ := evidenceLine_has_direction n v out hel
          obtain ⟨e₃, he₃⟩ := parseNorm_extra_error n .studyResult out
            "directionOfEvidenceProvided" x hx direction_not_in_studyResult_names
          obtain ⟨e₄, he₄⟩ := parseNorm_extra_error n .statement out
            "directionOfEvidenceProvided" x hx direction_not_in_statement_names
          refine ⟨?_, hwnf⟩
          simp only [evidenceItemCheck, resolveEvidenceItem, he₃, he₄, hw]
        | error e3 =>
          rw [hel] at hr
          cases v with
          | str s =>
            cases hr
            obtain ⟨a₁, ha₁⟩ := parseNorm_str_error n .studyResult s
            obtain ⟨a₂, ha₂⟩ := parseNorm_str_error n .statement s
            obtain ⟨a₃, ha₃⟩ := parseNorm_str_error n .evidenceLine s
            refine ⟨?_, hnf⟩
            simp only [evidenceItemCheck, resolveEvidenceItem, ha₁, ha₂, ha₃]
          | null => cases hr
          | num a => cases hr
          | bool a => cases hr
          | arr a => cases hr
          | obj a => cases hr

/-!
## Per-kind goodness and parser idempotence
-/

theorem goodSpec_opt (name : String) (c : Json → Except String Json)
    (h : GoodCheck c) : GoodSpec (optField name c) :=
  ⟨h, fun d hd => by simp [optField] at hd⟩

theorem goodSpec_req (name : String) (c : Json → Except String Json)
    (h : GoodCheck c) : GoodSpec (reqField name c) :=
  ⟨h, fun d hd => by simp [reqField] at hd⟩

theorem goodSpec_reqNullable (name : String) (c : Json → Except String Json)
    (h : GoodCheck c) : GoodSpec (reqNullableField name c) :=
  ⟨h, fun d hd => by simp [reqNullableField] at hd⟩

theorem passthrough_typeField (lit : String) :
    ∀ v w, (typeField lit).check v = .ok w → w = v := by
  intro v w h
  cases v <;> simp [typeField] at h
  split at h
  · cases h; rfl
  · cases h

theorem goodSpec_typeField (lit : String) : GoodSpec (typeField lit) := by
  constructor
  · exact goodCheck_of_passthrough _ (passthrough_typeField lit)
  · intro d hd
    simp only [typeField] at hd
    cases hd
    constructor
    · simp [typeField]
    · rfl

theorem goodSpec_dflt_str (name d : String) : GoodSpec (dfltField name d strCheck) := by
  constructor
  · exact good_strCheck
  · intro x hx
    simp only [dfltField] at hx
    cases hx
    exact ⟨rfl, rfl⟩

theorem allGood_nil : ∀ s ∈ ([] : List FieldSpec), GoodSpec s := by
  intro s hs
  cases hs

theorem allGood_cons (a : FieldSpec) (l : List FieldSpec)
    (ha : GoodSpec a) (hl : ∀ s ∈ l, GoodSpec s) : ∀ s ∈ a :: l, GoodSpec s := by
  intro s hs
  rcases List.mem_cons.mp hs with rfl | hs
  · exact ha
  · exact hl s hs

theorem allGood_append (l1 l2 : List FieldSpec)
    (h1 : ∀ s ∈ l1, GoodSpec s) (h2 : ∀ s ∈ l2, GoodSpec s) :
    ∀ s ∈ l1 ++ l2, GoodSpec s := by
  intro s hs
  rcases List.mem_append.mp hs with hs | hs
  · exact h1 s hs
  · exact h2 s hs

theorem goodEntitySpecs : ∀ s ∈ entitySpecs, GoodSpec s :=
  allGood_cons _ _ (goodSpec_opt _ _ good_strCheck)
    (allGood_cons _ _ (goodSpec_opt _ _ good_strCheck)
      (allGood_cons _ _ (goodSpec_opt _ _ good_strCheck)
        (allGood_cons _ _ (goodSpec_opt _ _ good_anyCheck) allGood_nil)))

theorem goodIESpecs (n : Nat) (hone : ∀ k, GoodCheck (parseNorm n k)) :
    ∀ s ∈ informationEntitySpecs (parseNorm n), GoodSpec s :=
  allGood_cons _ _
    (goodSpec_opt _ _ (good_parser_iri _ (hone _) (parseNorm_str_error n _)))
    (allGood_cons _ _ (goodSpec_opt _ _ (good_listCheck _ (hone _)))
      (allGood_cons _ _ (goodSpec_opt _ _ (good_listparser_iri _ (hone _))) allGood_nil))

theorem goodClinicalSpecs (n : Nat) (hone : ∀ k, GoodCheck (parseNorm n k)) :
    ∀ s ∈ clinicalPropositionSpecs (parseNorm n), GoodSpec s :=
  allGood_cons _ _ (goodSpec_opt _ _ good_obj_iri)
    (allGood_cons _ _
      (goodSpec_opt _ _ (good_parser_iri _ (hone _) (parseNorm_str_error n _)))
      (allGood_cons _ _
        (goodSpec_opt _ _ (good_parser_iri _ (hone _) (parseNorm_str_error n _)))
        allGood_nil))

/-- Every field specification of every kind is good, assuming the nested
parser (one fuel level down) is idempotent on null-free values. -/
theorem allGoodSpecs (n : Nat)
    (ih : ∀ k v w, Json.nullFree v = true → parseNorm n k v = .ok w →
      parseNorm n k w = .ok w ∧ Json.nullFree w = true) :
    ∀ k, ∀ s ∈ specsOf (parseNorm n) k, GoodSpec s := by
  have hone : ∀ k, GoodCheck (parseNorm n k) := fun k v w hv hp => ih k v w hv hp
  have hobj : ∀ k v w, parseNorm n k v = .ok w → ∃ out, w = .obj out :=
    fun k v w hp => (parseNorm_ok_obj n k v w hp).1
  have hstr : ∀ k u, ∃ e, parseNorm n k (.str u) = .error e :=
    fun k u => parseNorm_str_error n k u
  have hmi : GoodCheck (unionCheck [parseNorm n Kind.mappableConcept, iriCheck]) :=
    good_parser_iri _ (hone _) (hstr _)
  intro k
  cases k with
  | coding =>
    exact allGood_cons _ _ (goodSpec_opt _ _ good_strCheck)
      (allGood_cons _ _ (goodSpec_opt _ _ good_strCheck)
        (allGood_cons _ _ (goodSpec_req _ _ good_strCheck)
          (allGood_cons _ _ (goodSpec_req _ _ good_strCheck) allGood_nil)))
  | mappableConcept =>
    exact allGood_cons _ _ (goodSpec_opt _ _ good_strCheck)
      (allGood_cons _ _ (goodSpec_opt _ _ good_strCheck)
        (allGood_cons _ _ (goodSpec_opt _ _ good_strCheck)
          (allGood_cons _ _ (goodSpec_opt _ _ (hone _))
            (allGood_cons _ _ (goodSpec_opt _ _ good_anyCheck) allGood_nil))))
  | method =>
    exact allGood_cons _ _ (goodSpec_typeField _)
      (allGood_append _ _ goodEntitySpecs
        (allGood_cons _ _ (goodSpec_opt _ _ (hone _))
          (allGood_cons _ _
            (goodSpec_opt _ _ (good_parser_iri _ (hone _) (hstr _))) allGood_nil)))
  | document =>
    exact allGood_cons _ _ (goodSpec_typeField _)
      (allGood_append _ _ goodEntitySpecs
        (allGood_cons _ _ (goodSpec_opt _ _ (hone _))
          (allGood_cons _ _ (goodSpec_opt _ _ good_strCheck)
            (allGood_cons _ _ (goodSpec_opt _ _ (good_listCheck _ good_urlCheck))
              (allGood_cons _ _ (goodSpec_opt _ _ good_doiCheck)
                (allGood_cons _ _ (goodSpec_opt _ _ good_numCheck) allGood_nil))))))
  | agent =>
    exact allGood_cons _ _ (goodSpec_typeField _)
      (allGood_append _ _ goodEntitySpecs
        (allGood_cons _ _ (goodSpec_opt _ _ (hone _)) allGood_nil))
  | contribution =>
    exact allGood_cons _ _ (goodSpec_typeField _)
      (allGood_append _ _ goodEntitySpecs
        (allGood_cons _ _ (goodSpec_opt _ _ (hone _))
          (allGood_cons _ _ (goodSpec_opt _ _ (hone _))
            (allGood_cons _ _ (goodSpec_reqNullable _ _ good_dateCheck) allGood_nil))))
  | dataSet =>
    exact allGood_cons _ _ (goodSpec_typeField _)
      (allGood_append _ _ goodEntitySpecs
        (allGood_cons _ _ (goodSpec_opt _ _ (hone _))
          (allGood_cons _ _ (goodSpec_opt _ _ (good_parser_iri _ (hone _) (hstr _)))
            (allGood_cons _ _ (goodSpec_opt _ _ good_dateCheck)
              (allGood_cons _ _ (goodSpec_opt _ _ good_strCheck)
                (allGood_cons _ _ (goodSpec_opt _ _ (hone _)) allGood_nil))))))
  | studyGroup =>
    exact allGood_cons _ _ (goodSpec_typeField _)
      (allGood_append _ _ goodEntitySpecs
        (allGood_cons _ _ (goodSpec_opt _ _ good_numCheck)
          (allGood_cons _ _ (goodSpec_opt _ _ (good_listCheck _ (hone _))) allGood_nil)))
  | studyResult =>
    exact allGood_cons _ _ (goodSpec_req _ _ good_strCheck)
      (allGood_append _ _ (allGood_append _ _ goodEntitySpecs (goodIESpecs n hone))
          ((allGood_cons _ _ (goodSpec_req _ _ good_obj_iri)
            (allGood_cons _ _ (goodSpec_opt _ _ (hone _)) allGood_nil))))
  | statement =>
    exact allGood_cons _ _ (goodSpec_typeField _)
      (allGood_append _ _ (allGood_append _ _ goodEntitySpecs (goodIESpecs n hone))
          ((allGood_cons _ _ (goodSpec_req _ _ (hone _))
            (allGood_cons _ _ (goodSpec_req _ _ (good_enumCheck _))
              (allGood_cons _ _ (goodSpec_opt _ _ (hone _))
                (allGood_cons _ _ (goodSpec_opt _ _ good_numCheck)
                  (allGood_cons _ _ (goodSpec_opt _ _ (hone _))
                    (allGood_cons _ _
                      (goodSpec_opt _ _ (good_listCheck _
                        (good_parser_iri _ (hone _) (hstr _))))
                      allGood_nil))))))))
  | evidenceLine =>
    exact allGood_cons _ _ (goodSpec_typeField _)
      (allGood_append _ _ (allGood_append _ _ goodEntitySpecs (goodIESpecs n hone))
          ((allGood_cons _ _ (goodSpec_opt _ _ (hone _))
            (allGood_cons _ _
              (goodSpec_opt _ _ (good_listCheck _ (good_evidenceItemCheck n ih)))
              (allGood_cons _ _ (goodSpec_req _ _ (good_enumCheck _))
                (allGood_cons _ _ (goodSpec_opt _ _ (hone _))
                  (allGood_cons _ _ (goodSpec_opt _ _ good_numCheck)
                    (allGood_cons _ _ (goodSpec_opt _ _ (hone _)) allGood_nil))))))))
  | cafStudyResult =>
    exact allGood_cons _ _ (goodSpec_typeField _)
      (allGood_append _ _ (allGood_append _ _ goodEntitySpecs (goodIESpecs n hone))
          ((allGood_cons _ _ (goodSpec_req _ _ good_obj_iri)
            (allGood_cons _ _ (goodSpec_opt _ _ (hone _))
              (allGood_cons _ _ (goodSpec_req _ _ good_obj_iri)
                (allGood_cons _ _ (goodSpec_req _ _ good_numCheck)
                  (allGood_cons _ _ (goodSpec_req _ _ good_numCheck)
                    (allGood_cons _ _ (goodSpec_req _ _ good_numCheck)
                      (allGood_cons _ _ (goodSpec_req _ _ (hone _))
                        (allGood_cons _ _ (goodSpec_opt _ _ (good_listCheck _ (hone _)))
                          (allGood_cons _ _ (goodSpec_opt _ _ good_objCheck)
                            (allGood_cons _ _ (goodSpec_opt _ _ good_objCheck)
                              allGood_nil))))))))))))
  | proposition =>
    exact allGood_cons _ _ (goodSpec_req _ _ good_strCheck)
      (allGood_append _ _ goodEntitySpecs
        (allGood_cons _ _ (goodSpec_req _ _ good_objCheck)
          (allGood_cons _ _ (goodSpec_req _ _ good_strCheck)
            (allGood_cons _ _ (goodSpec_req _ _ good_objCheck) allGood_nil))))
  | expFunctionalImpactProposition =>
    exact allGood_cons _ _ (goodSpec_typeField _)
      (allGood_append _ _ goodEntitySpecs
        (allGood_cons _ _ (goodSpec_opt _ _ good_obj_iri)
          (allGood_cons _ _ (goodSpec_dflt_str _ _)
            (allGood_cons _ _ (goodSpec_req _ _ (good_iri_record _ (hone _) (hobj _)))
              (allGood_cons _ _
                (goodSpec_opt _ _ (good_iri_parser_obj _ (hone _) (hobj _)))
                allGood_nil)))))
  | variantDiagnosticProposition =>
    exact allGood_cons _ _ (goodSpec_typeField _)
      (allGood_append _ _ (allGood_append _ _ goodEntitySpecs (goodClinicalSpecs n hone))
          ((allGood_cons _ _ (goodSpec_req _ _ (good_enumCheck _))
            (allGood_cons _ _ (goodSpec_req _ _ good_obj_iri) allGood_nil))))
  | variantOncogenicityProposition =>
    exact allGood_cons _ _ (goodSpec_typeField _)
      (allGood_append _ _ (allGood_append _ _ goodEntitySpecs (goodClinicalSpecs n hone))
          ((allGood_cons _ _ (goodSpec_dflt_str _ _)
            (allGood_cons _ _ (goodSpec_req _ _ good_obj_iri) allGood_nil))))
  | variantPathogenicityProposition =>
    exact allGood_cons _ _ (goodSpec_typeField _)
      (allGood_append _ _ (allGood_append _ _ goodEntitySpecs (goodClinicalSpecs n hone))
          ((allGood_cons _ _ (goodSpec_dflt_str _ _)
            (allGood_cons _ _ (goodSpec_req _ _ good_obj_iri)
              (allGood_cons _ _ (goodSpec_opt _ _ (hone _))
                (allGood_cons _ _ (goodSpec_opt _ _ (hone _)) allGood_nil))))))
  | variantPrognosticProposition =>
    exact allGood_cons _ _ (goodSpec_typeField _)
      (allGood_append _ _ (allGood_append _ _ goodEntitySpecs (goodClinicalSpecs n hone))
          ((allGood_cons _ _ (goodSpec_req _ _ (good_enumCheck _))
            (allGood_cons _ _ (goodSpec_req _ _ good_obj_iri) allGood_nil))))
  | variantTherapeuticResponseProposition =>
    exact allGood_cons _ _ (goodSpec_typeField _)
      (allGood_append _ _ (allGood_append _ _ goodEntitySpecs (goodClinicalSpecs n hone))
          ((allGood_cons _ _ (goodSpec_req _ _ (good_enumCheck _))
            (allGood_cons _ _ (goodSpec_req _ _ good_obj_iri)
              (allGood_cons _ _ (goodSpec_req _ _ good_obj_iri) allGood_nil)))))
  | acmgVariantPathogenicityStatement =>
    exact allGood_cons _ _ (goodSpec_typeField _)
      (allGood_append _ _ goodEntitySpecs
        (allGood_cons _ _ (goodSpec_req _ _ (good_parser_iri _ (hone _) (hstr _)))
          (allGood_cons _ _ (goodSpec_opt _ _ (good_listCheck _ (hone _)))
            (allGood_cons _ _ (goodSpec_opt _ _ (good_listparser_iri _ (hone _)))
              (allGood_cons _ _ (goodSpec_opt _ _ (hone _))
                (allGood_cons _ _ (goodSpec_req _ _ (good_enumCheck _))
                  (allGood_cons _ _
                    (goodSpec_opt _ _ (good_withValidatorOpt _ _ (hone _)))
                    (allGood_cons _ _ (goodSpec_opt _ _ good_numCheck)
                      (allGood_cons _ _
                        (goodSpec_req _ _ (good_withValidatorReq _ _ (hone _)))
                        (allGood_cons _ _
                          (goodSpec_opt _ _ (good_listCheck _
                            (good_parser_iri _ (hone _) (hstr _))))
                          allGood_nil))))))))))
  | acmgFunctionalImpactEvidenceLine =>
    exact allGood_cons _ _ (goodSpec_typeField _)
      (allGood_append _ _ goodEntitySpecs
        (allGood_cons _ _
          (goodSpec_req _ _ (good_withValidatorReq _ _
            (good_parser_iri _ (hone _) (hstr _))))
          (allGood_cons _ _ (goodSpec_opt _ _ (good_listCheck _ (hone _)))
            (allGood_cons _ _ (goodSpec_opt _ _ (good_listparser_iri _ (hone _)))
              (allGood_cons _ _ (goodSpec_opt _ _ (hone _))
                (allGood_cons _ _
                  (goodSpec_opt _ _ (good_listCheck _ (good_evidenceItemCheck n ih)))
                  (allGood_cons _ _ (goodSpec_req _ _ (good_enumCheck _))
                    (allGood_cons _ _
                      (goodSpec_opt _ _ (good_withValidatorOpt _ _ (hone _)))
                      (allGood_cons _ _ (goodSpec_opt _ _ good_numCheck)
                        (allGood_cons _ _
                          (goodSpec_opt _ _ (good_withValidatorOpt _ _ (hone _)))
                          allGood_nil))))))))))
  | ccvVariantOncogenicityStudyStatement =>
    exact allGood_cons _ _ (goodSpec_typeField _)
      (allGood_append _ _ goodEntitySpecs
        (allGood_cons _ _ (goodSpec_req _ _ (good_parser_iri _ (hone _) (hstr _)))
          (allGood_cons _ _ (goodSpec_opt _ _ (good_listCheck _ (hone _)))
            (allGood_cons _ _ (goodSpec_opt _ _ (good_listparser_iri _ (hone _)))
              (allGood_cons _ _ (goodSpec_opt _ _ (hone _))
                (allGood_cons _ _ (goodSpec_req _ _ (good_enumCheck _))
                  (allGood_cons _ _
                    (goodSpec_opt _ _ (good_withValidatorOpt _ _ (hone _)))
                    (allGood_cons _ _ (goodSpec_opt _ _ good_numCheck)
                      (allGood_cons _ _
                        (goodSpec_req _ _ (good_withValidatorReq _ _ (hone _)))
                        (allGood_cons _ _
                          (goodSpec_opt _ _ (good_listCheck _
                            (good_parser_iri _ (hone _) (hstr _))))
                          allGood_nil))))))))))

/-- Parser idempotence: constructing a record from the normalized serialization
of a constructed record reproduces it exactly, and normalized serializations of
null-free inputs are null-free. -/
theorem parseNorm_idem :
    ∀ (n : Nat) (k : Kind) (v w : Json), v.nullFree = true →
      parseNorm n k v = .ok w → parseNorm n k w = .ok w ∧ w.nullFree = true := by
  intro n
  induction n with
  | zero => intro k v w _ h; simp [parseNorm] at h
  | succ m ih =>
    intro k v w hnf h
    rw [parseNorm] at h
    cases v <;> simp only [runSpecs] at h <;> try cases h
    rename_i flds
    split at h
    · rename_i hex0
      cases hr : runSpecsAux (specsOf (parseNorm m) k) flds with
      | error e => rw [hr] at h; cases h
      | ok out =>
        rw [hr] at h
        cases h
        have hnfp : Json.nullFreePairs flds = true := by
          rw [Json.nullFree] at hnf
          exact hnf
        have hnd : ((specsOf (parseNorm m) k).map FieldSpec.name).Nodup := by
          rw [specsOf_map_name]
          exact specNames_nodup k
        obtain ⟨hidem, hnfo⟩ := runSpecsAux_idem _ hnd (allGoodSpecs m ih k) flds out hnfp hr
        constructor
        · rw [parseNorm]
          simp only [runSpecs]
          have hex : noExtraKeys (specsOf (parseNorm m) k) out = true := by
            rw [noExtraKeys, List.all_eq_true]
            intro kv hkv
            rw [List.any_eq_true]
            obtain ⟨s, hsm, hname⟩ := List.mem_map.mp (runSpecsAux_keys _ flds out hr kv hkv)
            exact ⟨s, hsm, by simpa using hname⟩
          rw [hex]
          simp only [if_true, hidem]
        · rw [Json.nullFree]
          exact hnfo
    · cases h

/-!
## Destructuring and discriminator lemmas
-/

theorem parseNorm_ok_destruct (n : Nat) (k : Kind) (flds : List (String × Json)) (w : Json)
    (h : parseNorm (n + 1) k (.obj flds) = .ok w) :
    ∃ out, w = .obj out ∧ runSpecsAux (specsOf (parseNorm n) k) flds = .ok out
      ∧ noExtraKeys (specsOf (parseNorm n) k) flds = true := by
  rw [parseNorm] at h
  simp only [runSpecs] at h
  cases hex : noExtraKeys (specsOf (parseNorm n) k) flds with
  | false => rw [hex] at h; simp at h
  | true =>
    rw [hex] at h
    simp only [if_true] at h
    cases hr : runSpecsAux (specsOf (parseNorm n) k) flds with
    | error e => rw [hr] at h; cases h
    | ok out =>
      rw [hr] at h
      cases h
      exact ⟨out, rfl, rfl, rfl⟩

/-- A successful construction over a spec list headed by a `type` literal
discriminator always stores that literal first: omitted input is defaulted and
present input must equal the literal. -/
theorem runSpecs_type_head (lit : String) (rest : List FieldSpec) (v w : Json)
    (h : runSpecs (typeField lit :: rest) v = .ok w) :
    w.lookupField "type" = some (.str lit) := by
  cases v <;> simp only [runSpecs] at h <;> try cases h
  rename_i flds
  split at h
  · cases hr : runSpecsAux (typeField lit :: rest) flds with
    | error e => rw [hr] at h; cases h
    | ok out =>
      rw [hr] at h
      cases h
      cases hl : List.lookup "type" flds with
      | none =>
        simp only [runSpecsAux, typeField, hl] at hr
        cases hrr : runSpecsAux rest flds with
        | error e => rw [hrr] at hr; cases hr
        | ok out₁ =>
          rw [hrr] at hr
          cases hr
          simp [Json.lookupField, List.lookup]
      | some v0 =>
        simp only [runSpecsAux, typeField, hl] at hr
        cases v0 with
        | str s0 =>
          simp only [Json.isNull, Bool.false_eq_true, if_false] at hr
          by_cases hse : s0 = lit
          · subst hse
            simp only [if_pos rfl] at hr
            cases hrr : runSpecsAux rest flds with
            | error e => rw [hrr] at hr; cases hr
            | ok out₁ =>
              rw [hrr] at hr
              cases hr
              simp [Json.lookupField, List.lookup]
          · rw [if_neg hse] at hr
            cases hr
        | null => simp [Json.isNull] at hr
        | num a => simp [Json.isNull] at hr
        | bool a => simp [Json.isNull] at hr
        | arr a => simp [Json.isNull] at hr
        | obj a => simp [Json.isNull] at hr
  · cases h

/-- A present `type` member that differs from the registered literal is
rejected. -/
theorem runSpecs_type_mismatch (lit : String) (rest : List FieldSpec)
    (flds : List (String × Json)) (t : String)
    (hl : List.lookup "type" flds = some (.str t)) (hne : t ≠ lit) :
    ∃ e, runSpecs (typeField lit :: rest) (.obj flds) = .error e := by
  simp only [runSpecs]
  cases hex : noExtraKeys (typeField lit :: rest) flds with
  | false => exact ⟨"extra inputs are not permitted", by simp⟩
  | true =>
    simp only [if_true]
    have hstep : runSpecsAux (typeField lit :: rest) flds = .error ("type must be: " ++ lit) := by
      simp only [runSpecsAux, typeField, hl, Json.isNull, Bool.false_eq_true, if_false]
      rw [if_neg hne]
    rw [hstep]
    exact ⟨"type must be: " ++ lit, rfl⟩

/-!
## Claim theorems
-/

/-- C1: the claim states that every profile-bound coded field rejects a
`primaryCoding.system` differing from its profile's expected literal with a
message naming that literal.  The code violates this: the CCV 2022
Statement's strength validator only ASSIGNS its system-mismatch message
without raising it (a dead store in the source), so a strength coded with a
valid code under the WRONG (ACMG) system passes the validator, and the whole
`VariantOncogenicityStudyStatement` construction succeeds.  The AMP/ASCO/CAP
strength validator, by contrast, does raise and names the required literal. -/
theorem c1_ccv_system_mismatch_not_rejected :
    ccv_2022.VariantOncogenicityStudyStatement.validate_strength (some mcDefinitive_ACMG)
        = .ok (some mcDefinitive_ACMG)
    ∧ (∃ out, parseNorm 5 .ccvVariantOncogenicityStudyStatement ccvWrongSystemStatement
        = .ok (.obj out))
    ∧ aac_2017.ValidatorMixin.validate_strength (some mcDefinitive_ACMG)
        = .error "primaryCoding.system must be: AMP/ASCO/CAP (AAC) Guidelines, 2017." := by
  refine ⟨rfl, ⟨?_, ?_⟩, rfl⟩
  · exact
      [("type", .str "Statement"),
       ("specifiedBy", .str "method.json#/1"),
       ("direction", .str "supports"),
       ("strength", mcDefinitive_ACMG),
       ("classification", .obj [("primaryCoding", .obj
         [("system", .str "ClinGen Low Penetrance and Risk Allele Recommendations, 2024"),
          ("code", .str "low penetrance")])])]
  · rfl

/-- C2: the claim states that an EvidenceLine with direction neutral and a
populated strength is rejected, and one with direction supports and strength
absent is rejected.  The code enforces neither: the conditional rule is stated
only in the field's description and no validator relates
`strengthOfEvidenceProvided` to `directionOfEvidenceProvided`, so the ACMG
functional-impact EvidenceLine accepts all three combinations (the third,
supports with a valid strength, matches the claim). -/
theorem c2_conditional_strength_rule_unenforced :
    parseNorm 5 .acmgFunctionalImpactEvidenceLine elNeutralWithStrength
      = .ok (.obj
        [("type", .str "EvidenceLine"),
         ("specifiedBy", methodWithRI),
         ("directionOfEvidenceProvided", .str "neutral"),
         ("strengthOfEvidenceProvided", mcStrengthACMG)])
    ∧ parseNorm 5 .acmgFunctionalImpactEvidenceLine elSupportsNoStrength
      = .ok (.obj
        [("type", .str "EvidenceLine"),
         ("specifiedBy", methodWithRI),
         ("directionOfEvidenceProvided", .str "supports")])
    ∧ parseNorm 5 .acmgFunctionalImpactEvidenceLine elSupportsWithStrength
      = .ok (.obj
        [("type", .str "EvidenceLine"),
         ("specifiedBy", methodWithRI),
         ("directionOfEvidenceProvided", .str "supports"),
         ("strengthOfEvidenceProvided", mcStrengthACMG)]) :=
  ⟨rfl, rfl, rfl⟩

/-- C3: the claim (and the repository's own test) states that the
CohortAlleleFrequencyStudyResult scenario input constructs successfully with
the generic `focus` field absent from the field set and the serialization.
Under the source as given, `CohortAlleleFrequencyStudyResult` subclasses the
base `StudyResult`, inheriting its REQUIRED generic `focus` field, so the
scenario input is rejected for the missing `focus` and `focus` remains in the
class's field set. -/
theorem c3_caf_scenario_rejected_for_missing_focus :
    parseNorm 5 .cafStudyResult cafScenarioInput = .error "missing required field: focus"
    ∧ "focus" ∈ specNames Kind.cafStudyResult :=
  ⟨rfl, by decide⟩

/-- C4: the AMP/ASCO/CAP classification validator accepts Tier I under the
AAC system literal, rejects Tier I under the ACMG system with a message naming
the required literal, and rejects Tier V under the correct system with a
message listing the permitted tiers. -/
theorem c4_aac_classification_rejection_table :
    aac_2017.ValidatorMixin.validate_classification mcTierI_AAC = .ok mcTierI_AAC
    ∧ aac_2017.ValidatorMixin.validate_classification mcTierI_ACMG
        = .error "primaryCoding.system must be: AMP/ASCO/CAP (AAC) Guidelines, 2017."
    ∧ aac_2017.ValidatorMixin.validate_classification mcTierV_AAC
        = .error "primaryCoding.code should be one of [Tier I, Tier II, Tier III, Tier IV]." :=
  ⟨rfl, rfl, rfl⟩

/-- C5: an element of `hasEvidenceItems` carrying `type: "Statement"` resolves
to the Statement variant (not a StudyResult and not a reference), a bare
string element resolves to a Reference wrapping that string, and the same
resolution happens inside EvidenceLine construction. -/
theorem c5_evidence_item_resolution :
    resolveEvidenceItem (parseNorm 5) stmtItemDoc = .ok (.statement, stmtItemNorm)
    ∧ resolveEvidenceItem (parseNorm 5) (.str "evidence_items.json#/1")
        = .ok (.iri, .str "evidence_items.json#/1")
    ∧ parseNorm 5 .evidenceLine elWithStmtItem
        = .ok (.obj
          [("type", .str "EvidenceLine"),
           ("hasEvidenceItems", .arr [stmtItemNorm]),
           ("directionOfEvidenceProvided", .str "supports")]) :=
  ⟨rfl, rfl, rfl⟩

/-- C6 counterexample: the claim states every concrete Proposition variant
rejects predicates outside its fixed set, but `VariantPathogenicityProposition`
declares `predicate: str` with only a default, so an arbitrary predicate
string is accepted. -/
theorem c6_counterexample_unconstrained_predicate :
    parseNorm 5 .variantPathogenicityProposition (pathPropInput "notARealPredicate")
      = .ok (.obj
        [("type", .str "VariantPathogenicityProposition"),
         ("predicate", .str "notARealPredicate"),
         ("objectCondition", .str "condition.json#/1")]) := rfl

/-- C9: constructing a VariantPathogenicityFunctionalImpactEvidenceLine with
an inline Method lacking `reportedIn` fails with the error stating that
reportedIn is required; a Method with reportedIn populated, or a bare
reference string, is accepted. -/
theorem c9_specified_by_requires_reportedIn :
    parseNorm 5 .acmgFunctionalImpactEvidenceLine elMethodNoRI
        = .error "reportedIn is required."
    ∧ acmg_2015.FunctionalImpactEvidenceLine.validate_specified_by methodNoRI
        = .error "reportedIn is required."
    ∧ parseNorm 5 .acmgFunctionalImpactEvidenceLine elMethodWithRI
        = .ok (.obj
          [("type", .str "EvidenceLine"),
           ("specifiedBy", methodWithRI),
           ("directionOfEvidenceProvided", .str "supports")])
    ∧ parseNorm 5 .acmgFunctionalImpactEvidenceLine elRefSpecifiedBy
        = .ok (.obj
          [("type", .str "EvidenceLine"),
           ("specifiedBy", .str "method.json#/1"),
           ("directionOfEvidenceProvided", .str "supports")]) :=
  ⟨rfl, rfl, rfl, rfl⟩

/-- C10: the ACMG VariantPathogenicityStatement overrides the base Statement's
required `proposition` with an optional field, so a statement constructs with
no proposition at all (and the serialization carries none), while the base
Statement rejects the same input for the missing proposition. -/
theorem c10_profile_relaxes_required_proposition :
    parseNorm 5 .acmgVariantPathogenicityStatement vpsNoProposition
      = .ok (.obj
        [("type", .str "Statement"),
         ("specifiedBy", .str "method.json#/1"),
         ("direction", .str "supports"),
         ("classification", .obj [("primaryCoding", .obj
           [("system", .str "ACMG Guidelines, 2015"), ("code", .str "pathogenic")])])])
    ∧ (Json.obj
        [("type", .str "Statement"),
         ("specifiedBy", .str "method.json#/1"),
         ("direction", .str "supports"),
         ("classification", .obj [("primaryCoding", .obj
           [("system", .str "ACMG Guidelines, 2015"), ("code", .str "pathogenic")])])]).lookupField
        "proposition" = none
    ∧ parseNorm 5 .statement vpsNoProposition = .error "missing required field: proposition" :=
  ⟨rfl, rfl, rfl⟩

/-- C8 counterexample: the round-trip claim fails as stated.  A Statement
input whose optional `strength` member is an explicit null constructs
successfully, but the serialization drops the member entirely; and an
EvidenceLine whose nested evidence item omits its `type` member reappears with
the discriminator default filled in, so the input's `hasEvidenceItems`
key-value pair does not reappear unchanged. -/
theorem c8_counterexample_serialization_not_verbatim :
    parseNorm 5 .statement stNullStrengthInput
      = .ok (.obj
        [("type", .str "Statement"),
         ("proposition", stmtMinimalProp),
         ("direction", .str "supports")])
    ∧ stNullStrengthInput.lookupField "strength" = some .null
    ∧ (Json.obj
        [("type", .str "Statement"),
         ("proposition", stmtMinimalProp),
         ("direction", .str "supports")]).lookupField "strength" = none
    ∧ parseNorm 5 .evidenceLine elWithUntypedItem
      = .ok (.obj
        [("type", .str "EvidenceLine"),
         ("hasEvidenceItems", .arr [.obj
           [("type", .str "Statement"),
            ("proposition", stmtMinimalProp),
            ("direction", .str "supports")]]),
         ("directionOfEvidenceProvided", .str "supports")])
    ∧ stmtItemNoType.lookupField "type" = none :=
  ⟨rfl, rfl, rfl, rfl, rfl⟩

/-- C8 (amended): for every embedded kind and every well-formed (duplicate-key
free), null-free input document that constructs successfully, serialization is
idempotent (re-constructing from the serialized record reproduces it exactly),
and every input key-value pair reappears in the serialization with the value
its own field check normalizes it to (hence unchanged whenever that check
leaves it fixed).  The claim as stated, with verbatim reappearance of every
pair, fails on explicit nulls and nested discriminator defaults (see the
counterexample). -/
theorem c8_roundtrip_up_to_normalization (n : Nat) (k : Kind)
    (flds out : List (String × Json))
    (hnd : (flds.map Prod.fst).Nodup)
    (hnf : Json.nullFree (.obj flds) = true)
    (hp : parseNorm (n + 1) k (.obj flds) = .ok (.obj out)) :
    parseNorm (n + 1) k (.obj out) = .ok (.obj out)
    ∧ ∀ kv ∈ flds, ∃ w, (kv.1, w) ∈ out ∧
        ∃ s ∈ specsOf (parseNorm n) k, s.name = kv.1 ∧ s.check kv.2 = .ok w := by
  obtain ⟨out₂, hweq, hrun, hex⟩ := parseNorm_ok_destruct n k flds (.obj out) hp
  injection hweq with he
  subst he
  refine ⟨(parseNorm_idem (n + 1) k (.obj flds) (.obj out) hnf hp).1, ?_⟩
  intro kv hkv
  obtain ⟨key, val⟩ := kv
  have hnfp : Json.nullFreePairs flds = true := by
    rw [Json.nullFree] at hnf
    exact hnf
  have hlook := lookup_of_mem_nodup flds hnd key val hkv
  have hvnull : val.isNull = false :=
    isNull_eq_false_of_nullFree val (nullFree_of_lookup flds hnfp key val hlook)
  rw [noExtraKeys, List.all_eq_true] at hex
  have h2 := hex (key, val) hkv
  rw [List.any_eq_true] at h2
  obtain ⟨s, hs, hname0⟩ := h2
  have hname : s.name = key := by simpa using hname0
  obtain ⟨w, hcheck, hmem⟩ := runSpecsAux_preserves _ flds out hrun s hs val
    (by rw [hname]; exact hlook) hvnull
  refine ⟨w, ?_, s, hs, hname, hcheck⟩
  rw [← hname]
  exact hmem

/-- C8 witness: the amended round-trip theorem applied to a concrete Agent
input. -/
theorem c8_roundtrip_witness :
    (([("name", Json.str "Joe")].map Prod.fst).Nodup
      ∧ Json.nullFree (.obj [("name", .str "Joe")]) = true
      ∧ parseNorm 1 .agent (.obj [("name", .str "Joe")])
          = .ok (.obj [("type", .str "Agent"), ("name", .str "Joe")]))
    ∧ (parseNorm 1 .agent (.obj [("type", .str "Agent"), ("name", .str "Joe")])
          = .ok (.obj [("type", .str "Agent"), ("name", .str "Joe")])
        ∧ ∀ kv ∈ [("name", Json.str "Joe")],
            ∃ w, (kv.1, w) ∈ [("type", Json.str "Agent"), ("name", Json.str "Joe")] ∧
              ∃ s ∈ specsOf (parseNorm 0) .agent, s.name = kv.1 ∧ s.check kv.2 = .ok w) :=
  ⟨⟨by decide, rfl, rfl⟩,
    c8_roundtrip_up_to_normalization 0 .agent [("name", .str "Joe")]
      [("type", .str "Agent"), ("name", .str "Joe")] (by decide) rfl rfl⟩

/-- C7: every concrete kind's construction yields a `type` member equal to its
registered discriminator literal (filled in when omitted, preserved when
matching), and a supplied non-matching `type` value is rejected. -/
theorem c7_discriminator_fidelity (k : Kind) (lit : String) (hk : literalOf k = some lit)
    (n : Nat) (v w : Json) :
    (parseNorm (n + 1) k v = .ok w → w.lookupField "type" = some (.str lit))
    ∧ (∀ flds t, v = .obj flds → List.lookup "type" flds = some (.str t) → t ≠ lit →
        ∃ e, parseNorm (n + 1) k v = .error e) := by
  cases k
  case coding => exact absurd hk (by simp [literalOf])
  case mappableConcept => exact absurd hk (by simp [literalOf])
  case studyResult => exact absurd hk (by simp [literalOf])
  case proposition => exact absurd hk (by simp [literalOf])
  all_goals
    simp only [literalOf, Option.some.injEq] at hk
  all_goals
    subst hk
  all_goals
    constructor
    · intro h
      rw [parseNorm] at h
      exact runSpecs_type_head _ _ v w h
    · intro flds t hv hl hne
      subst hv
      obtain ⟨e, he⟩ := runSpecs_type_mismatch _ _ flds t hl hne
      exact ⟨e, by rw [parseNorm]; exact he⟩

/-- C7 witness: discriminator fidelity applied to a concrete Agent input. -/
theorem c7_discriminator_witness :
    literalOf Kind.agent = some "Agent"
    ∧ ((parseNorm 1 .agent agentInput = .ok agentNorm →
          agentNorm.lookupField "type" = some (.str "Agent"))
        ∧ (∀ flds t, agentInput = .obj flds → List.lookup "type" flds = some (.str t) →
            t ≠ "Agent" → ∃ e, parseNorm 1 .agent agentInput = .error e)) :=
  ⟨rfl, c7_discriminator_fidelity .agent "Agent" rfl 0 agentInput agentNorm⟩

/-- A record kind whose `predicate` field is bound to an enumeration rejects
any input whose predicate lies outside it (no successful construction can
exist, since every present field must pass its check). -/
theorem enum_predicate_blocks (s : String) (k : Kind) (flds : List (String × Json))
    (allowed : List String)
    (hsmem : reqField "predicate" (enumCheck allowed) ∈ specsOf (parseNorm 4) k)
    (hlook : List.lookup "predicate" flds = some (.str s))
    (hnm : s ∉ allowed) :
    ∃ e, parseNorm 5 k (.obj flds) = .error e := by
  cases hres : parseNorm 5 k (.obj flds) with
  | error e => exact ⟨e, rfl⟩
  | ok w =>
    exfalso
    obtain ⟨out, _, hrun, _⟩ := parseNorm_ok_destruct 4 k flds w hres
    obtain ⟨w2, hck, _⟩ := runSpecsAux_preserves _ flds out hrun _ hsmem (.str s) hlook rfl
    have hen : enumCheck allowed (.str s)
        = .error ("value must be one of " ++ listRepr allowed) := by
      simp [enumCheck, hnm]
    simp only [reqField] at hck
    rw [hen] at hck
    cases hck

/-- C6 (amended): only the diagnostic, prognostic and therapeutic-response
Proposition variants restrict the predicate to their fixed enumerations; the
pathogenicity, oncogenicity and experimental-functional-impact variants
declare `predicate: str` with only a default value, so they accept ANY
predicate string.  The claim as stated (every variant rejects predicates
outside its fixed set) fails on the latter three (see the counterexample). -/
theorem c6_predicate_enforcement_by_variant (s : String)
    (h1 : s ∉ (["isDiagnosticInclusionCriterionFor",
                "isDiagnosticExclusionCriterionFor"] : List String))
    (h2 : s ∉ (["associatedWithBetterOutcomeFor",
                "associatedWithWorseOutcomeFor"] : List String))
    (h3 : s ∉ (["predictsSensitivityTo", "predictsResistanceTo"] : List String)) :
    (∃ e, parseNorm 5 .variantDiagnosticProposition (diagPropInput s) = .error e)
    ∧ (∃ e, parseNorm 5 .variantPrognosticProposition (prognPropInput s) = .error e)
    ∧ (∃ e, parseNorm 5 .variantTherapeuticResponseProposition (therPropInput s) = .error e)
    ∧ parseNorm 5 .variantPathogenicityProposition (pathPropInput s)
        = .ok (.obj
          [("type", .str "VariantPathogenicityProposition"),
           ("predicate", .str s),
           ("objectCondition", .str "condition.json#/1")])
    ∧ parseNorm 5 .variantOncogenicityProposition (oncoPropInput s)
        = .ok (.obj
          [("type", .str "VariantOncogenicityProposition"),
           ("predicate", .str s),
           ("objectTumorType", .str "tumor.json#/1")])
    ∧ parseNorm 5 .expFunctionalImpactProposition (expPropInput s)
        = .ok (.obj
          [("type", .str "ExperimentalVariantFunctionalImpactProposition"),
           ("predicate", .str s),
           ("objectSequenceFeature", .str "gene.json#/1")]) := by
  refine ⟨?_, ?_, ?_, rfl, rfl, rfl⟩
  · refine enum_predicate_blocks s _ _ _ ?_ rfl h1
    simp [specsOf, entitySpecs, clinicalPropositionSpecs, subjectVariantSpec, mcOrIriCheck]
  · refine enum_predicate_blocks s _ _ _ ?_ rfl h2
    simp [specsOf, entitySpecs, clinicalPropositionSpecs, subjectVariantSpec, mcOrIriCheck]
  · refine enum_predicate_blocks s _ _ _ ?_ rfl h3
    simp [specsOf, entitySpecs, clinicalPropositionSpecs, subjectVariantSpec, mcOrIriCheck]

/-- C6 witness: the amended predicate theorem applied at a concrete predicate
string outside every enumeration. -/
theorem c6_predicate_witness :
    ("notARealPredicate" ∉ (["isDiagnosticInclusionCriterionFor",
        "isDiagnosticExclusionCriterionFor"] : List String)
      ∧ "notARealPredicate" ∉ (["associatedWithBetterOutcomeFor",
          "associatedWithWorseOutcomeFor"] : List String)
      ∧ "notARealPredicate" ∉ (["predictsSensitivityTo",
          "predictsResistanceTo"] : List String))
    ∧ ((∃ e, parseNorm 5 .variantDiagnosticProposition
          (diagPropInput "notARealPredicate") = .error e)
      ∧ (∃ e, parseNorm 5 .variantPrognosticProposition
          (prognPropInput "notARealPredicate") = .error e)
      ∧ (∃ e, parseNorm 5 .variantTherapeuticResponseProposition
          (therPropInput "notARealPredicate") = .error e)
      ∧ parseNorm 5 .variantPathogenicityProposition (pathPropInput "notARealPredicate")
          = .ok (.obj
            [("type", .str "VariantPathogenicityProposition"),
             ("predicate", .str "notARealPredicate"),
             ("objectCondition", .str "condition.json#/1")])
      ∧ parseNorm 5 .variantOncogenicityProposition (oncoPropInput "notARealPredicate")
          = .ok (.obj
            [("type", .str "VariantOncogenicityProposition"),
             ("predicate", .str "notARealPredicate"),
             ("objectTumorType", .str "tumor.json#/1")])
      ∧ parseNorm 5 .expFunctionalImpactProposition (expPropInput "notARealPredicate")
          = .ok (.obj
            [("type", .str "ExperimentalVariantFunctionalImpactProposition"),
             ("predicate", .str "notARealPredicate"),
             ("objectSequenceFeature", .str "gene.json#/1")])) :=
  ⟨⟨by decide, by decide, by decide⟩,
    c6_predicate_enforcement_by_variant "notARealPredicate"
      (by decide) (by decide) (by decide)⟩
